import Mathlib

/-!
# Verification of the `figure-webnav` step-solving orchestrator

Shallow embedding of the code under `src/webnav/` (Python) into Lean 4,
together with proofs settling the frozen claims about the natural-language
specification.

Modelling conventions:

* Pure Python helpers become Lean functions on `String` / `List Char`;
  wall-clock times become `Nat` values supplied by oracles.
* Browser/DOM reads (`page.evaluate`, `page.inner_text`, URLs, LLM calls)
  are modelled as oracle inputs: a structure field holds exactly the data
  the corresponding DOM query would yield, and the loop bodies that the
  Python/JS code runs over that data are translated faithfully.
* The specific regexes of the source (`CODE_PATTERN`, the false-positive
  lists, the JS scan regexes, the instruction-parsing regexes) are
  translated into explicit executable matchers on `List Char`.
* Fallible calls (`try/except`) become `Option`-valued oracle inputs
  (`none` = the call raised).
-/

set_option autoImplicit false

namespace WebNav

/-! ## Character classes and small string utilities -/

/-- The `[A-Z0-9]` class of `CODE_PATTERN` (`perception.py` line 22). -/
def isUpperAlnum (c : Char) : Bool :=
  (('A' ≤ c) && (c ≤ 'Z')) || (('0' ≤ c) && (c ≤ '9'))

/-- The `\w` class used by the `\b` boundaries of `CODE_PATTERN` (ASCII). -/
def isWordChar (c : Char) : Bool :=
  (('A' ≤ c) && (c ≤ 'Z')) || (('a' ≤ c) && (c ≤ 'z')) ||
  (('0' ≤ c) && (c ≤ '9')) || (c == '_')

/-- The `\s` whitespace class of Python/JS regexes. -/
def isSpaceChar (c : Char) : Bool :=
  c == ' ' || c == '\t' || c == '\n' || c == '\x0d' || c == '\x0c' || c == '\x0b'

/-- ASCII digit. -/
def isDigitChar (c : Char) : Bool := ('0' ≤ c) && (c ≤ '9')

/-- A six-character run of `[A-Z0-9]`. -/
def isCodeRun (l : List Char) : Bool := l.length == 6 && l.all isUpperAlnum

/-- Exact test `^[A-Z0-9]{6}$` (the fixed lexical token format). -/
def isCode6 (s : String) : Bool := isCodeRun s.data

/-- Lower-casing as Python's `str.lower()` / JS `toLowerCase()` (ASCII). -/
def lowerStr (s : String) : String := String.mk (s.data.map Char.toLower)

/-- Python's substring test `needle in haystack` on char lists. -/
def listContainsSub (needle : List Char) : List Char → Bool
  | [] => needle.isEmpty
  | c :: rest => needle.isPrefixOf (c :: rest) || listContainsSub needle rest

/-- Python's substring test `needle in haystack`. -/
def containsSub (needle haystack : String) : Bool :=
  listContainsSub needle.data haystack.data

/-! ## False-positive (sentinel) lists

`perception.py` line 25 (`_FALSE_POSITIVE`), repeated verbatim in the JS
scans of `extractor.py`; the script/advanced scans extend it. -/

/-- Alternatives of `_FALSE_POSITIVE` other than `STEP\d+`
    (`CLICK[S]?` is listed as its two words). -/
def FP_BASE : List String :=
  ["SUBMIT", "SCROLL", "CLICK", "CLICKS", "REVEAL", "BUTTON", "HIDDEN",
   "STEPBAR", "HELLOA", "CANVAS", "MOVING", "COMPLE", "DECODE", "STRING",
   "BASE64", "PLEASE", "SELECT", "OPTION"]

/-- The `STEP\d+` alternative of `_FALSE_POSITIVE`. -/
def isStepNum (s : String) : Bool :=
  match s.data with
  | 'S' :: 'T' :: 'E' :: 'P' :: rest => !rest.isEmpty && rest.all isDigitChar
  | _ => false

/-- `_FALSE_POSITIVE.match(code)` (anchored at `^...$`). -/
def isFalsePositive (s : String) : Bool := FP_BASE.contains s || isStepNum s

/-- Extra alternatives of the extended `fp` used by `_SCRIPT_TAG_SCAN_JS`
    and `_ADVANCED_SCAN_JS` (`extractor.py` lines 354, 386). -/
def FP_EXT : List String :=
  ["WINDOW", "DOCUME", "FUNCTI", "RETURN", "OBJECT", "SCRIPT", "TYPEOF",
   "NUMBER", "LENGTH", "FILTER", "CONCAT", "IMPORT", "EXPORT", "MODULE",
   "REQUIR"]

/-- The extended false-positive test of the script/advanced scans. -/
def isFalsePositiveExt (s : String) : Bool :=
  isFalsePositive s || FP_EXT.contains s

/-! ## Regex matchers for code extraction -/

/-- Leftmost match of the unanchored JS regex `/([A-Z0-9]{6})/`:
    first position where six consecutive `[A-Z0-9]` characters start. -/
def firstRun6 : List Char → Option (List Char)
  | [] => none
  | c :: cs =>
    if isCodeRun ((c :: cs).take 6) then some ((c :: cs).take 6)
    else firstRun6 cs

/-- The JS idiom `const m = text.match(/([A-Z0-9]{6})/); if (m && !fp.test(m[1])) ...`:
    take the first match only, then discard the whole string if it is a
    false positive. -/
def partialCode (fp : String → Bool) (s : String) : Option String :=
  match firstRun6 s.data with
  | some run => let c := String.mk run; if fp c then none else some c
  | none => none

/-- All non-overlapping matches of the global JS regex `/([A-Z0-9]{6})/g`
    (fuelled recursion; fuel = input length suffices). -/
def runs6Go : Nat → List Char → List (List Char)
  | 0, _ => []
  | _ + 1, [] => []
  | fuel + 1, c :: cs =>
    if isCodeRun ((c :: cs).take 6) then
      (c :: cs).take 6 :: runs6Go fuel ((c :: cs).drop 6)
    else runs6Go fuel cs

/-- All non-overlapping matches of `/([A-Z0-9]{6})/g`. -/
def runs6 (l : List Char) : List (List Char) := runs6Go l.length l

/-- All non-overlapping matches of Python's
    `CODE_PATTERN = re.compile(r"\b([A-Z0-9]{6})\b")` via `finditer`:
    six `[A-Z0-9]` characters with a word boundary on each side.
    `prev` is the character just before the current suffix. -/
def pyCodesGo : Nat → Option Char → List Char → List (List Char)
  | 0, _, _ => []
  | _ + 1, _, [] => []
  | fuel + 1, prev, c :: cs =>
    if isCodeRun ((c :: cs).take 6)
        && !((prev.map isWordChar).getD false)
        && !((((c :: cs).get? 6).map isWordChar).getD false) then
      (c :: cs).take 6 :: pyCodesGo fuel ((c :: cs).get? 5) ((c :: cs).drop 6)
    else pyCodesGo fuel (some c) cs

/-- `CODE_PATTERN.finditer(text)` matches. -/
def pyCodes (l : List Char) : List (List Char) := pyCodesGo l.length none l

/-- `_extract_candidates` (`extractor.py` lines 615-622): all
    `CODE_PATTERN` matches that are not `_FALSE_POSITIVE`. -/
def extractCandidates (text : String) : List String :=
  ((pyCodes text.data).map String.mk).filter fun c => !isFalsePositive c

/-! ## Generic scan loop shapes of the JS extraction passes -/

/-- A JS loop `for (s of L) if (/^[A-Z0-9]{6}$/.test(s) && !fp.test(s)) return s`. -/
def scanExact (fp : String → Bool) (l : List String) : Option String :=
  l.findSome? fun s => if isCode6 s && !fp s then some s else none

/-- A JS loop `for (s of L) { m = s.match(/([A-Z0-9]{6})/); if (m && !fp.test(m[1])) return m[1] }`. -/
def scanPartial (fp : String → Bool) (l : List String) : Option String :=
  l.findSome? (partialCode fp)

/-! ## The green-success scan (`find_code` priority 0, `extractor.py` lines 27-53) -/

/-- Inputs of the priority-0 `page.evaluate` in `find_code`: the text
    contents the three strategies iterate over.  The DOM queries that
    produce these lists are the oracle; the loop bodies are translated. -/
structure GreenPage where
  /-- Strategy 1: `textContent.trim()` of each green-success element. -/
  greenTexts : List String
  /-- Strategy 2: `document.body.innerText`. -/
  bodyInnerText : String
  /-- Strategy 3: `textContent` of each green/success-styled element. -/
  greenStyledTexts : List String

/-- Try to match `(?:code\s*revealed|your\s*code)` anchored at the head,
    returning the rest. -/
def revealAnchor (l : List Char) : Option (List Char) :=
  (match "code".data.isPrefixOf? l with
   | some r => "revealed".data.isPrefixOf? (r.dropWhile isSpaceChar)
   | none => none)
  <|>
  (match "your".data.isPrefixOf? l with
   | some r => "code".data.isPrefixOf? (r.dropWhile isSpaceChar)
   | none => none)

/-- Leftmost match of `/(?:code\s*revealed|your\s*code)[:\s]*([A-Z0-9]{6})/`,
    returning the captured group. -/
def revealSearch : List Char → Option (List Char)
  | [] => none
  | c :: cs =>
    match revealAnchor (c :: cs) with
    | some rest =>
      let rest := rest.dropWhile fun ch => ch == ':' || isSpaceChar ch
      let six := rest.take 6
      if isCodeRun six then some six else revealSearch cs
    | none => revealSearch cs

/-- The priority-0 green-success scan of `find_code`. -/
def greenScan (p : GreenPage) : Option String :=
  scanExact isFalsePositive p.greenTexts <|>
  (match revealSearch p.bodyInnerText.data with
   | some run => let c := String.mk run; if isFalsePositive c then none else some c
   | none => none) <|>
  scanPartial isFalsePositive p.greenStyledTexts

/-! ## `_HIDDEN_CODE_SCAN_JS` (`extractor.py` lines 174-281) -/

/-- Inputs of the eight passes of the hidden-code scan, in pass order.
    Each field holds the strings the corresponding DOM traversal visits. -/
structure HiddenPage where
  /-- Pass 1a: every attribute value (exact match). -/
  attrValues : List String
  /-- Pass 1b: attribute values except `class`/`style`/`src` (partial). -/
  dataAttrValues : List String
  /-- Pass 2: trimmed leaf `textContent` (exact). -/
  leafTexts : List String
  /-- Pass 3: `textContent` of computed-hidden elements (partial). -/
  hiddenElementTexts : List String
  /-- Pass 4: pseudo-element `content` with quotes stripped (partial). -/
  pseudoContents : List String
  /-- Pass 5: HTML comment texts (partial). -/
  commentTexts : List String
  /-- Pass 6: raw local/session-storage values (partial). -/
  storageValues : List String
  /-- Pass 7: CSS custom-property values, quotes stripped (partial). -/
  cssVarValues : List String
  /-- Pass 8: stringified window/document properties (partial). -/
  windowPropValues : List String

/-- The single-pass JS scan for hidden codes. -/
def hiddenScan (p : HiddenPage) : Option String :=
  scanExact isFalsePositive p.attrValues <|>
  scanPartial isFalsePositive p.dataAttrValues <|>
  scanExact isFalsePositive p.leafTexts <|>
  scanPartial isFalsePositive p.hiddenElementTexts <|>
  scanPartial isFalsePositive p.pseudoContents <|>
  scanPartial isFalsePositive p.commentTexts <|>
  scanPartial isFalsePositive p.storageValues <|>
  scanPartial isFalsePositive p.cssVarValues <|>
  scanPartial isFalsePositive p.windowPropValues

/-! ## Shadow-DOM and recursive-iframe scans (`extractor.py` lines 287-346)

Both scans interleave, in traversal order, partial matches on collected
text with exact matches on attribute values; the traversal order is the
oracle, the per-item checks are translated. -/

/-- One check performed by the shadow-DOM / iframe traversals. -/
inductive ScanItem where
  /-- `text.match(/\b?([A-Z0-9]{6})\b?/)` on collected text (partial). -/
  | text (s : String)
  /-- `/^[A-Z0-9]{6}$/.test(attr.value)` on an attribute value (exact). -/
  | attr (s : String)
deriving Repr, DecidableEq

/-- The linearized shadow-DOM / iframe scan. -/
def itemsScan (items : List ScanItem) : Option String :=
  items.findSome? fun
    | .text s => partialCode isFalsePositive s
    | .attr s => if isCode6 s && !isFalsePositive s then some s else none

/-! ## Playwright frame loop (`find_code` lines 79-86) -/

/-- `for frame in page.frames[1:]`: evaluate the frame's body text
    (`none` = the evaluate raised, `continue`), extract candidates,
    filter used, return the first. -/
def framesScan (frames : List (Option String)) (used : List String) :
    Option String :=
  frames.findSome? fun
    | none => none
    | some t => ((extractCandidates t).filter fun c => !used.contains c).head?

/-! ## `_BASE64_DECODE_SCAN_JS` (`extractor.py` lines 114-169) -/

/-- Every `tryDecode` call ends in
    `decoded.match(/([A-Z0-9]{6})/)` + base `fp` test; the `atob` outputs
    attempted, in order, are the oracle input. -/
def b64Scan (decoded : List String) : Option String :=
  scanPartial isFalsePositive decoded

/-! ## `_SCRIPT_TAG_SCAN_JS` (`extractor.py` lines 351-376) -/

/-- Non-overlapping matches of `/["']([A-Z0-9]{6})["']/g`. -/
def quotedCodesGo : Nat → List Char → List String
  | 0, _ => []
  | _ + 1, [] => []
  | fuel + 1, c :: cs =>
    if c == '"' || c == '\'' then
      if isCodeRun (cs.take 6) then
        match cs.drop 6 with
        | q :: rest =>
          if q == '"' || q == '\'' then
            String.mk (cs.take 6) :: quotedCodesGo fuel rest
          else quotedCodesGo fuel cs
        | [] => quotedCodesGo fuel cs
      else quotedCodesGo fuel cs
    else quotedCodesGo fuel cs

/-- All quoted six-character string literals in a script text. -/
def quotedCodes (l : List Char) : List String := quotedCodesGo l.length l

/-- Scan one inline script: length guard, quoted string literals first,
    then any six-character run; both under the extended fp list. -/
def scriptScanOne (text : String) : Option String :=
  if text.length < 6 || text.length > 50000 then none
  else
    ((quotedCodes text.data).findSome? fun c =>
      if isFalsePositiveExt c then none else some c)
    <|>
    (((runs6 text.data).map String.mk).findSome? fun c =>
      if isFalsePositiveExt c then none else some c)

/-- The inline `<script>` scan over all script texts. -/
def scriptScan (scripts : List String) : Option String :=
  scripts.findSome? scriptScanOne

/-! ## `_ADVANCED_SCAN_JS` (`extractor.py` lines 382-612) -/

/-- Inputs of the nine sections of the advanced scan, in section order.
    Candidate-producing transformations (sibling concatenation, data-part
    joins, multi-decodes, concat patterns) are oracle inputs; the
    `ok`/`okP` checks (exact/partial match + extended fp) are translated. -/
structure AdvancedPage where
  /-- §1: concatenated inline-sibling texts (exact `ok`). -/
  inlineCombined : List String
  /-- §2: joined `data-part*` attribute values (exact `ok`). -/
  dataPartCombined : List String
  /-- §3: `::before + text + ::after` combinations (exact `ok`). -/
  pseudoCombined : List String
  /-- §4: template contents (partial `okP`). -/
  templateTexts : List String
  /-- §4: noscript contents (partial `okP`). -/
  noscriptTexts : List String
  /-- §4: SVG `text`/`tspan` trimmed texts (exact `ok`). -/
  svgTexts : List String
  /-- §5: multi-encoding decode outputs, in attempt order (partial `okP`). -/
  decodedCandidates : List String
  /-- §6: stylesheet custom-property values and their `atob` decodes (partial `okP`). -/
  cssRuleValues : List String
  /-- §7: script concatenation/`fromCharCode`/`join`/`reverse` candidates (exact `ok`). -/
  scriptConcatCandidates : List String
  /-- §8: window global strings (exact `ok`). -/
  windowGlobalStrings : List String
  /-- §9: meta-tag attribute values (partial `okP`). -/
  metaAttrValues : List String
  /-- §9: hidden-input values (partial `okP`). -/
  hiddenInputValues : List String

/-- The advanced scan (split content, multi-encoding, templates, …). -/
def advancedScan (p : AdvancedPage) : Option String :=
  scanExact isFalsePositiveExt p.inlineCombined <|>
  scanExact isFalsePositiveExt p.dataPartCombined <|>
  scanExact isFalsePositiveExt p.pseudoCombined <|>
  scanPartial isFalsePositiveExt p.templateTexts <|>
  scanPartial isFalsePositiveExt p.noscriptTexts <|>
  scanExact isFalsePositiveExt p.svgTexts <|>
  scanPartial isFalsePositiveExt p.decodedCandidates <|>
  scanPartial isFalsePositiveExt p.cssRuleValues <|>
  scanExact isFalsePositiveExt p.scriptConcatCandidates <|>
  scanExact isFalsePositiveExt p.windowGlobalStrings <|>
  scanPartial isFalsePositiveExt p.metaAttrValues <|>
  scanPartial isFalsePositiveExt p.hiddenInputValues

/-! ## `find_code` (`extractor.py` lines 12-109) -/

/-- The page contents the successive phases of `find_code` observe.
    Each field is what the corresponding DOM read would yield. -/
structure Page where
  green : GreenPage
  /-- `page.inner_text("body")`; `none` = the call raised (text = `""`). -/
  bodyText : Option String
  hidden : HiddenPage
  shadowItems : List ScanItem
  /-- Body texts of `page.frames[1:]`; `none` = the evaluate raised. -/
  frameTexts : List (Option String)
  iframeItems : List ScanItem
  b64Decoded : List String
  scriptTexts : List String
  adv : AdvancedPage

/-- `if result and result not in skip: return result` — else fall through. -/
def notUsed (used : List String) (o : Option String) : Option String :=
  o.bind fun c => if used.contains c then none else some c

/-- `find_code(page, used_codes)`: the ordered fallback chain.  Each scan
    result is returned only when not in `used`; otherwise the next
    fallback runs. -/
def find_code (p : Page) (used : List String) : Option String :=
  notUsed used (greenScan p.green) <|>
  ((extractCandidates (p.bodyText.getD "")).filter fun c => !used.contains c).head? <|>
  notUsed used (hiddenScan p.hidden) <|>
  notUsed used (itemsScan p.shadowItems) <|>
  framesScan p.frameTexts used <|>
  notUsed used (itemsScan p.iframeItems) <|>
  notUsed used (b64Scan p.b64Decoded) <|>
  notUsed used (scriptScan p.scriptTexts) <|>
  notUsed used (advancedScan p.adv)

/-! ## Soundness of the extraction scans -/

theorem orElse_cases {α : Type} {a b : Option α} {c : α}
    (h : (a <|> b) = some c) : a = some c ∨ b = some c := by
  cases a <;> simp_all

theorem findSome?_sound {α β : Type} (f : α → Option β) (P : β → Prop)
    (hf : ∀ a b, f a = some b → P b) :
    ∀ (l : List α) (b : β), l.findSome? f = some b → P b := by
  intro l
  induction l with
  | nil => intro b h; simp [List.findSome?] at h
  | cons x xs ih =>
    intro b h
    rw [List.findSome?_cons] at h
    cases hx : f x with
    | some y => rw [hx] at h; exact hf x b (hx.trans h)
    | none => rw [hx] at h; exact ih b h

theorem head?_mem {α : Type} {l : List α} {c : α} (h : l.head? = some c) :
    c ∈ l := by
  cases l with
  | nil => simp at h
  | cons a as => simp at h; simp [h]

theorem scanExact_sound (fp : String → Bool) (l : List String) (c : String)
    (h : scanExact fp l = some c) : isCode6 c = true ∧ fp c = false := by
  refine findSome?_sound _ (fun c => isCode6 c = true ∧ fp c = false) ?_ l c h
  intro s b hb
  by_cases hc : (isCode6 s && !fp s) = true
  · simp [hc] at hb
    subst hb
    simpa [Bool.and_eq_true] using hc
  · simp [hc] at hb

theorem firstRun6_sound {l run : List Char} (h : firstRun6 l = some run) :
    isCodeRun run = true := by
  induction l with
  | nil => simp [firstRun6] at h
  | cons c cs ih =>
    rw [firstRun6] at h
    split at h
    · cases h
      assumption
    · exact ih h

theorem isCode6_mk {run : List Char} (h : isCodeRun run = true) :
    isCode6 (String.mk run) = true := h

theorem partialCode_sound (fp : String → Bool) (s : String) (c : String)
    (h : partialCode fp s = some c) : isCode6 c = true ∧ fp c = false := by
  unfold partialCode at h
  cases hr : firstRun6 s.data with
  | none => rw [hr] at h; simp at h
  | some run =>
    rw [hr] at h
    simp only at h
    by_cases hf : fp (String.mk run) = true
    · simp [hf] at h
    · simp [hf] at h
      subst h
      exact ⟨isCode6_mk (firstRun6_sound hr), by simpa using hf⟩

theorem scanPartial_sound (fp : String → Bool) (l : List String) (c : String)
    (h : scanPartial fp l = some c) : isCode6 c = true ∧ fp c = false :=
  findSome?_sound _ (fun c => isCode6 c = true ∧ fp c = false)
    (fun s b hb => partialCode_sound fp s b hb) l c h

theorem revealSearch_sound {l run : List Char} (h : revealSearch l = some run) :
    isCodeRun run = true := by
  induction l with
  | nil => simp [revealSearch] at h
  | cons c cs ih =>
    rw [revealSearch] at h
    cases ha : revealAnchor (c :: cs) with
    | none => rw [ha] at h; exact ih h
    | some rest =>
      rw [ha] at h
      simp only at h
      by_cases hc :
          isCodeRun ((rest.dropWhile fun ch => ch == ':' || isSpaceChar ch).take 6) = true
      · simp [hc] at h
        subst h
        exact hc
      · simp [hc] at h
        exact ih h

theorem greenScan_sound (p : GreenPage) (c : String)
    (h : greenScan p = some c) : isCode6 c = true ∧ isFalsePositive c = false := by
  unfold greenScan at h
  rcases orElse_cases h with h1 | h2
  · exact scanExact_sound _ _ _ h1
  rcases orElse_cases h2 with h3 | h4
  · cases hr : revealSearch p.bodyInnerText.data with
    | none => rw [hr] at h3; simp at h3
    | some run =>
      rw [hr] at h3
      simp only at h3
      by_cases hf : isFalsePositive (String.mk run) = true
      · simp [hf] at h3
      · simp [hf] at h3
        subst h3
        exact ⟨isCode6_mk (revealSearch_sound hr), by simpa using hf⟩
  · exact scanPartial_sound _ _ _ h4

theorem hiddenScan_sound (p : HiddenPage) (c : String)
    (h : hiddenScan p = some c) : isCode6 c = true ∧ isFalsePositive c = false := by
  unfold hiddenScan at h
  rcases orElse_cases h with h1 | h
  · exact scanExact_sound _ _ _ h1
  rcases orElse_cases h with h1 | h
  · exact scanPartial_sound _ _ _ h1
  rcases orElse_cases h with h1 | h
  · exact scanExact_sound _ _ _ h1
  rcases orElse_cases h with h1 | h
  · exact scanPartial_sound _ _ _ h1
  rcases orElse_cases h with h1 | h
  · exact scanPartial_sound _ _ _ h1
  rcases orElse_cases h with h1 | h
  · exact scanPartial_sound _ _ _ h1
  rcases orElse_cases h with h1 | h
  · exact scanPartial_sound _ _ _ h1
  rcases orElse_cases h with h1 | h
  · exact scanPartial_sound _ _ _ h1
  · exact scanPartial_sound _ _ _ h

theorem itemsScan_sound (items : List ScanItem) (c : String)
    (h : itemsScan items = some c) : isCode6 c = true ∧ isFalsePositive c = false := by
  refine findSome?_sound _ (fun c => isCode6 c = true ∧ isFalsePositive c = false)
    ?_ items c h
  intro it b hb
  cases it with
  | text s => exact partialCode_sound _ s b hb
  | attr s =>
    have hb' : (if (isCode6 s && !isFalsePositive s) = true then some s
        else none) = some b := hb
    split at hb'
    · cases hb'
      simp_all [Bool.and_eq_true]
    · cases hb'

theorem extractCandidates_sound (t : String) (c : String)
    (h : c ∈ extractCandidates t) :
    isCode6 c = true ∧ isFalsePositive c = false := by
  unfold extractCandidates at h
  rw [List.mem_filter] at h
  obtain ⟨hmem, hfp⟩ := h
  rw [List.mem_map] at hmem
  obtain ⟨run, hrun, rfl⟩ := hmem
  refine ⟨?_, by simpa using hfp⟩
  refine isCode6_mk ?_
  -- every element of pyCodesGo is a code run
  suffices H : ∀ (fuel : Nat) (prev : Option Char) (l r : List Char),
      r ∈ pyCodesGo fuel prev l → isCodeRun r = true by
    exact H _ _ _ _ hrun
  intro fuel
  induction fuel with
  | zero => intro prev l r hr; simp [pyCodesGo] at hr
  | succ n ih =>
    intro prev l r hr
    cases l with
    | nil => simp [pyCodesGo] at hr
    | cons x xs =>
      rw [pyCodesGo] at hr
      split at hr
      · next hc =>
          rcases List.mem_cons.mp hr with rfl | hr'
          · simp [Bool.and_eq_true] at hc
            exact hc.1.1
          · exact ih _ _ _ hr'
      · exact ih _ _ _ hr

theorem framesScan_sound (frames : List (Option String)) (used : List String)
    (c : String) (h : framesScan frames used = some c) :
    isCode6 c = true ∧ isFalsePositive c = false ∧ used.contains c = false := by
  refine findSome?_sound _
    (fun c => isCode6 c = true ∧ isFalsePositive c = false ∧ used.contains c = false)
    ?_ frames c h
  intro fr b hb
  cases fr with
  | none => simp at hb
  | some t =>
    simp only at hb
    have hmem := head?_mem hb
    rw [List.mem_filter] at hmem
    obtain ⟨hm, hu⟩ := hmem
    obtain ⟨h1, h2⟩ := extractCandidates_sound t b hm
    exact ⟨h1, h2, by simpa using hu⟩

theorem fpExt_false {s : String} (h : isFalsePositiveExt s = false) :
    isFalsePositive s = false := by
  unfold isFalsePositiveExt at h
  simp [Bool.or_eq_false_iff] at h
  exact h.1

theorem runs6Go_sound :
    ∀ (fuel : Nat) (l r : List Char), r ∈ runs6Go fuel l → isCodeRun r = true := by
  intro fuel
  induction fuel with
  | zero => intro l r hr; simp [runs6Go] at hr
  | succ n ih =>
    intro l r hr
    cases l with
    | nil => simp [runs6Go] at hr
    | cons x xs =>
      rw [runs6Go] at hr
      split at hr
      · next hc =>
          rcases List.mem_cons.mp hr with rfl | hr'
          · exact hc
          · exact ih _ _ hr'
      · exact ih _ _ hr

theorem quotedCodesGo_sound :
    ∀ (fuel : Nat) (l : List Char) (c : String),
      c ∈ quotedCodesGo fuel l → isCode6 c = true := by
  intro fuel
  induction fuel with
  | zero => intro l c hc; simp [quotedCodesGo] at hc
  | succ n ih =>
    intro l c hc
    cases l with
    | nil => simp [quotedCodesGo] at hc
    | cons x xs =>
      rw [quotedCodesGo] at hc
      split at hc
      · split at hc
        · next hr =>
            split at hc
            · split at hc
              · rcases List.mem_cons.mp hc with rfl | hc'
                · exact isCode6_mk hr
                · exact ih _ _ hc'
              · exact ih _ _ hc
            · exact ih _ _ hc
        · exact ih _ _ hc
      · exact ih _ _ hc

theorem findSome?_sound_mem {α β : Type} (f : α → Option β) (P : β → Prop) :
    ∀ (l : List α), (∀ a ∈ l, ∀ b, f a = some b → P b) →
      ∀ (b : β), l.findSome? f = some b → P b := by
  intro l
  induction l with
  | nil => intro _ b h; simp [List.findSome?] at h
  | cons x xs ih =>
    intro hf b h
    rw [List.findSome?_cons] at h
    cases hx : f x with
    | some y => rw [hx] at h; exact hf x (by simp) b (hx.trans h)
    | none =>
      rw [hx] at h
      exact ih (fun a ha => hf a (List.mem_cons_of_mem _ ha)) b h

theorem scriptScan_sound (scripts : List String) (c : String)
    (h : scriptScan scripts = some c) :
    isCode6 c = true ∧ isFalsePositive c = false := by
  refine findSome?_sound _ (fun c => isCode6 c = true ∧ isFalsePositive c = false)
    ?_ scripts c h
  intro text b hb
  unfold scriptScanOne at hb
  by_cases hl : (text.length < 6 || text.length > 50000) = true
  · rw [if_pos hl] at hb; cases hb
  rw [if_neg hl] at hb
  rcases orElse_cases hb with h1 | h2
  · refine findSome?_sound_mem _ (fun c => isCode6 c = true ∧ isFalsePositive c = false)
      _ ?_ b h1
    intro s hs b' hb'
    by_cases hf : isFalsePositiveExt s = true
    · rw [if_pos hf] at hb'; cases hb'
    · rw [if_neg hf] at hb'
      cases hb'
      exact ⟨quotedCodesGo_sound _ _ _ hs, fpExt_false (by simpa using hf)⟩
  · refine findSome?_sound_mem _ (fun c => isCode6 c = true ∧ isFalsePositive c = false)
      _ ?_ b h2
    intro s hs b' hb'
    by_cases hf : isFalsePositiveExt s = true
    · rw [if_pos hf] at hb'; cases hb'
    · rw [if_neg hf] at hb'
      cases hb'
      rw [List.mem_map] at hs
      obtain ⟨run, hrun, rfl⟩ := hs
      exact ⟨isCode6_mk (runs6Go_sound _ _ _ hrun),
        fpExt_false (by simpa using hf)⟩

theorem scanExact_sound_ext (l : List String) (c : String)
    (h : scanExact isFalsePositiveExt l = some c) :
    isCode6 c = true ∧ isFalsePositive c = false := by
  obtain ⟨h1, h2⟩ := scanExact_sound _ _ _ h
  exact ⟨h1, fpExt_false h2⟩

theorem scanPartial_sound_ext (l : List String) (c : String)
    (h : scanPartial isFalsePositiveExt l = some c) :
    isCode6 c = true ∧ isFalsePositive c = false := by
  obtain ⟨h1, h2⟩ := scanPartial_sound _ _ _ h
  exact ⟨h1, fpExt_false h2⟩

theorem advancedScan_sound (p : AdvancedPage) (c : String)
    (h : advancedScan p = some c) :
    isCode6 c = true ∧ isFalsePositive c = false := by
  unfold advancedScan at h
  rcases orElse_cases h with h1 | h
  · exact scanExact_sound_ext _ _ h1
  rcases orElse_cases h with h1 | h
  · exact scanExact_sound_ext _ _ h1
  rcases orElse_cases h with h1 | h
  · exact scanExact_sound_ext _ _ h1
  rcases orElse_cases h with h1 | h
  · exact scanPartial_sound_ext _ _ h1
  rcases orElse_cases h with h1 | h
  · exact scanPartial_sound_ext _ _ h1
  rcases orElse_cases h with h1 | h
  · exact scanExact_sound_ext _ _ h1
  rcases orElse_cases h with h1 | h
  · exact scanPartial_sound_ext _ _ h1
  rcases orElse_cases h with h1 | h
  · exact scanPartial_sound_ext _ _ h1
  rcases orElse_cases h with h1 | h
  · exact scanExact_sound_ext _ _ h1
  rcases orElse_cases h with h1 | h
  · exact scanExact_sound_ext _ _ h1
  rcases orElse_cases h with h1 | h
  · exact scanPartial_sound_ext _ _ h1
  · exact scanPartial_sound_ext _ _ h

theorem notUsed_sound {used : List String} {o : Option String} {c : String}
    (h : notUsed used o = some c) : o = some c ∧ used.contains c = false := by
  unfold notUsed at h
  cases o with
  | none => simp at h
  | some x =>
    have h' : (if used.contains x = true then none else some x) = some c := h
    split at h'
    · cases h'
    · cases h'
      simp_all

/-- Soundness of the full `find_code` fallback chain (shared lemma). -/
theorem find_code_sound (p : Page) (used : List String) (c : String)
    (h : find_code p used = some c) :
    isCode6 c = true ∧ isFalsePositive c = false ∧ used.contains c = false := by
  unfold find_code at h
  rcases orElse_cases h with h1 | h
  · obtain ⟨hg, hu⟩ := notUsed_sound h1
    obtain ⟨a, b⟩ := greenScan_sound _ _ hg
    exact ⟨a, b, hu⟩
  rcases orElse_cases h with h1 | h
  · have hmem := head?_mem h1
    rw [List.mem_filter] at hmem
    obtain ⟨hm, hu⟩ := hmem
    obtain ⟨a, b⟩ := extractCandidates_sound _ _ hm
    exact ⟨a, b, by simpa using hu⟩
  rcases orElse_cases h with h1 | h
  · obtain ⟨hg, hu⟩ := notUsed_sound h1
    obtain ⟨a, b⟩ := hiddenScan_sound _ _ hg
    exact ⟨a, b, hu⟩
  rcases orElse_cases h with h1 | h
  · obtain ⟨hg, hu⟩ := notUsed_sound h1
    obtain ⟨a, b⟩ := itemsScan_sound _ _ hg
    exact ⟨a, b, hu⟩
  rcases orElse_cases h with h1 | h
  · exact framesScan_sound _ _ _ h1
  rcases orElse_cases h with h1 | h
  · obtain ⟨hg, hu⟩ := notUsed_sound h1
    obtain ⟨a, b⟩ := itemsScan_sound _ _ hg
    exact ⟨a, b, hu⟩
  rcases orElse_cases h with h1 | h
  · obtain ⟨hg, hu⟩ := notUsed_sound h1
    obtain ⟨a, b⟩ := scanPartial_sound _ _ _ hg
    exact ⟨a, b, hu⟩
  rcases orElse_cases h with h1 | h
  · obtain ⟨hg, hu⟩ := notUsed_sound h1
    obtain ⟨a, b⟩ := scriptScan_sound _ _ hg
    exact ⟨a, b, hu⟩
  · obtain ⟨hg, hu⟩ := notUsed_sound h
    obtain ⟨a, b⟩ := advancedScan_sound _ _ hg
    exact ⟨a, b, hu⟩

/-- **C7.** For every used-token set and every page content, `find_code`
    returns a token only if it is exactly six uppercase alphanumeric
    characters, is not in the sentinel/false-positive list, and is not in
    the used set — on every extraction fallback path. -/
theorem claim_C7_find_code_contract (p : Page) (used : List String) (c : String)
    (h : find_code p used = some c) :
    isCode6 c = true ∧ isFalsePositive c = false ∧ used.contains c = false :=
  find_code_sound p used c h

/-- A concrete page whose green-success box shows `AB12CD`. -/
def pageGreenExample : Page :=
  { green := ⟨["AB12CD"], "", []⟩
    bodyText := none
    hidden := ⟨[], [], [], [], [], [], [], [], []⟩
    shadowItems := []
    frameTexts := []
    iframeItems := []
    b64Decoded := []
    scriptTexts := []
    adv := ⟨[], [], [], [], [], [], [], [], [], [], [], []⟩ }

/-- Witness for C7 at a concrete page and empty used set. -/
theorem claim_C7_witness :
    isCode6 "AB12CD" = true ∧ isFalsePositive "AB12CD" = false ∧
      List.contains ([] : List String) "AB12CD" = false :=
  claim_C7_find_code_contract pageGreenExample [] "AB12CD" (by decide)

/-! ## `metrics.py`: `StepMetric` and `MetricsCollector`

Wall-clock readings (`time.time()`) become `Nat` arguments; float wall
times become `Nat` differences. -/

/-- `StepMetric` (`metrics.py` lines 10-20). -/
structure StepMetric where
  step : Nat
  wallTime : Nat := 0
  llmCalls : Nat := 0
  llmTokens : Nat := 0
  tierUsed : Nat := 0
  success : Bool := false
  codeFound : String := ""
  error : String := ""
deriving Repr, DecidableEq

/-- The mutable fields of `MetricsCollector` the claims concern
    (`steps`, `_step_start`, `_current`). -/
structure MetricsCollector where
  steps : List StepMetric := []
  stepStart : Nat := 0
  current : Option StepMetric := none
deriving Repr, DecidableEq

/-- `MetricsCollector.begin_step` (lines 38-40). -/
def beginStep (m : MetricsCollector) (now step : Nat) : MetricsCollector :=
  { m with stepStart := now, current := some { step := step } }

/-- `MetricsCollector.end_step` (lines 42-50). -/
def endStep (m : MetricsCollector) (now : Nat) (success : Bool)
    (code : String) (error : String) : MetricsCollector :=
  match m.current with
  | none => m
  | some cur =>
    { m with
      steps := m.steps ++
        [{ cur with
            wallTime := now - m.stepStart
            success := success
            codeFound := code
            error := error }]
      current := none }

/-- `MetricsCollector.record_llm_call` (lines 52-56). -/
def recordLlmCall (m : MetricsCollector) (tier tokens : Nat) : MetricsCollector :=
  match m.current with
  | none => m
  | some cur =>
    { m with
      current := some
        { cur with
            llmCalls := cur.llmCalls + 1
            llmTokens := cur.llmTokens + tokens
            tierUsed := max cur.tierUsed tier } }

/-- One collector operation, for reasoning about arbitrary interleavings. -/
inductive MOp where
  | begin (now step : Nat)
  | close (now : Nat) (success : Bool) (code error : String)
  | record (tier tokens : Nat)
deriving Repr

/-- Apply one operation. -/
def applyMOp (m : MetricsCollector) : MOp → MetricsCollector
  | .begin now step => beginStep m now step
  | .close now success code error => endStep m now success code error
  | .record tier tokens => recordLlmCall m tier tokens

/-- Apply a sequence of operations in order. -/
def applyMOps (m : MetricsCollector) (ops : List MOp) : MetricsCollector :=
  ops.foldl applyMOp m

/-- Number of `begin_step` calls in an operation sequence. -/
def countBegins (ops : List MOp) : Nat :=
  (ops.filter fun op => match op with | .begin _ _ => true | _ => false).length

/-- Potential: closed metrics plus the at-most-one in-flight metric. -/
def metricsPot (m : MetricsCollector) : Nat :=
  m.steps.length + (if m.current.isSome then 1 else 0)

theorem metricsPot_step (m : MetricsCollector) (op : MOp) :
    metricsPot (applyMOp m op) ≤
      metricsPot m + (if countBegins [op] = 1 then 1 else 0) := by
  cases op with
  | begin now step =>
    have h1 : metricsPot (applyMOp m (.begin now step)) = m.steps.length + 1 := by
      simp [applyMOp, beginStep, metricsPot]
    have h2 : countBegins [MOp.begin now step] = 1 := rfl
    rw [h1, h2]
    unfold metricsPot
    cases m.current <;> simp
  | close now success code error =>
    simp only [applyMOp, endStep]
    cases hc : m.current with
    | none => simp [metricsPot, countBegins, hc]
    | some cur => simp [metricsPot, countBegins, hc]
  | record tier tokens =>
    simp only [applyMOp, recordLlmCall]
    cases hc : m.current with
    | none => simp [metricsPot, countBegins, hc]
    | some cur => simp [metricsPot, countBegins, hc]

theorem metricsPot_run (ops : List MOp) :
    ∀ (m : MetricsCollector),
      metricsPot (applyMOps m ops) ≤ metricsPot m + countBegins ops := by
  induction ops with
  | nil => intro m; simp [applyMOps, countBegins]
  | cons op rest ih =>
    intro m
    have h1 := metricsPot_step m op
    have hc : countBegins (op :: rest) =
        (if countBegins [op] = 1 then 1 else 0) + countBegins rest := by
      cases op <;> (simp [countBegins, List.filter]; try omega)
    calc metricsPot (applyMOps m (op :: rest))
        = metricsPot (applyMOps (applyMOp m op) rest) := rfl
      _ ≤ metricsPot (applyMOp m op) + countBegins rest := ih _
      _ ≤ metricsPot m + (if countBegins [op] = 1 then 1 else 0) +
            countBegins rest := by omega
      _ = metricsPot m + countBegins (op :: rest) := by rw [hc]; omega

/-- **C10.** Over every interleaving of collector operations, each
    `begin_step` accounts for at most one appended `StepMetric` (the
    closed-steps count never exceeds the initial count plus the number of
    `begin_step` calls when no step is initially in flight), `begin_step`
    itself appends nothing, and an `end_step` with no step in progress is
    a no-op leaving the collector — hence the steps list and every
    total — unchanged. -/
theorem claim_C10_metrics_interleavings (m : MetricsCollector) (ops : List MOp)
    (now step : Nat) (success : Bool) (code error : String) :
    (m.current = none → endStep m now success code error = m) ∧
    (beginStep m now step).steps = m.steps ∧
    (m.current = none →
      (applyMOps m ops).steps.length ≤ m.steps.length + countBegins ops) := by
  refine ⟨?_, rfl, ?_⟩
  · intro h
    simp [endStep, h]
  · intro h
    have h1 := metricsPot_run ops m
    have h2 : metricsPot m = m.steps.length := by simp [metricsPot, h]
    have h3 : (applyMOps m ops).steps.length ≤ metricsPot (applyMOps m ops) := by
      unfold metricsPot
      omega
    omega

/-- Witness for C10: a `begin`/`close`/`close` interleaving from a fresh
    collector; the second `close` hits `current = none`. -/
theorem claim_C10_witness :
    (({} : MetricsCollector).current = none →
      endStep {} 7 true "AB12CD" "" = {}) ∧
    (beginStep {} 3 1).steps = ({} : MetricsCollector).steps ∧
    (({} : MetricsCollector).current = none →
      (applyMOps {} [MOp.begin 3 1, MOp.close 5 true "AB12CD" "",
        MOp.close 7 false "" ""]).steps.length ≤
        ({} : MetricsCollector).steps.length +
          countBegins [MOp.begin 3 1, MOp.close 5 true "AB12CD" "",
            MOp.close 7 false "" ""]) :=
  claim_C10_metrics_interleavings {} _ 3 1 true "AB12CD" ""

/-! ## Token-submission discipline (`agent.py`)

The two kinds of submission sites in `Agent._solve_step`:

* the visible-code check (lines 1122-1131): the first visible code not in
  `self._used_codes` is submitted;
* every `find_code(page, self._used_codes)` call followed by
  `self._submit_and_check(code, step)` (lines 1191-1199, 1217-1220,
  1308-1312, 1331-1335, 1421-1430, 1443-1477).

`_submit_and_check` (lines 1684-1715) adds the code to `_used_codes`
whenever the submission went through (accepted or rejected) and only
then.  We prove the used-token invariant over arbitrary sequences of
these sites, which includes every control path of the agent. -/

/-- Python `set.add` on a list-modelled set. -/
def addUsed (used : List String) (c : String) : List String :=
  if used.contains c then used else used ++ [c]

/-- Environment responses to one `_submit_and_check` call. -/
structure SubmitOracle where
  /-- result of `submit_code(page, code)`. -/
  submitted : Bool
  /-- whether `check_advancement` succeeded (immediately or in the poll). -/
  advanced : Bool
  /-- `time.time()` for the metric closed on advancement. -/
  now : Nat

/-- Result of `_submit_and_check`: success flag plus updated used set and
    metrics (`StateTracker` counters are not claim-relevant). -/
structure SubmitResult where
  ok : Bool
  used : List String
  metrics : MetricsCollector

/-- `Agent._submit_and_check` (lines 1684-1715).  On a submission that
    went through, the code joins `_used_codes` whether or not the step
    advanced; a submission that did not go through leaves state alone. -/
def submitAndCheck (code : String) (o : SubmitOracle) (used : List String)
    (m : MetricsCollector) : SubmitResult :=
  if o.submitted then
    if o.advanced then
      { ok := true, used := addUsed used code,
        metrics := endStep m o.now true code "" }
    else
      { ok := false, used := addUsed used code, metrics := m }
  else
    { ok := false, used := used, metrics := m }

/-- One submission opportunity in `_solve_step`. -/
inductive SubmitSite where
  /-- the visible-code check: `page_state.visible_codes` plus the
      submitter's responses. -/
  | visible (codes : List String) (o : SubmitOracle)
  /-- a `find_code` call on the current page plus the submitter's
      responses. -/
  | extract (p : Page) (o : SubmitOracle)

/-- Run one site: select a code exactly as the agent does, submit it if
    one was selected.  Returns the submit events (token, used set at the
    moment `submit` is invoked) plus the updated state. -/
def runSite (used : List String) (m : MetricsCollector) :
    SubmitSite → List (String × List String) × List String × MetricsCollector
  | .visible codes o =>
    match codes.find? (fun c => !used.contains c) with
    | some code =>
      let r := submitAndCheck code o used m
      ([(code, used)], r.used, r.metrics)
    | none => ([], used, m)
  | .extract p o =>
    match find_code p used with
    | some code =>
      let r := submitAndCheck code o used m
      ([(code, used)], r.used, r.metrics)
    | none => ([], used, m)

/-- Run a sequence of submission sites, accumulating submit events. -/
def runSites : List SubmitSite → List String → MetricsCollector →
    List (String × List String) × List String × MetricsCollector
  | [], used, m => ([], used, m)
  | s :: ss, used, m =>
    let r := runSite used m s
    let rest := runSites ss r.2.1 r.2.2
    (r.1 ++ rest.1, rest.2)

/-- Tokens selected at a site are never in the current used set. -/
theorem runSite_event_fresh (used : List String) (m : MetricsCollector)
    (s : SubmitSite) :
    ∀ ev ∈ (runSite used m s).1, ev.2 = used ∧ used.contains ev.1 = false := by
  cases s with
  | visible codes o =>
    intro ev hev
    rw [runSite] at hev
    cases hf : codes.find? (fun c => !used.contains c) with
    | none => rw [hf] at hev; simp at hev
    | some code =>
      rw [hf] at hev
      rw [List.mem_singleton] at hev
      subst hev
      have hp := List.find?_some hf
      refine ⟨rfl, ?_⟩
      simpa using hp
  | extract p o =>
    intro ev hev
    rw [runSite] at hev
    cases hf : find_code p used with
    | none => rw [hf] at hev; simp at hev
    | some code =>
      rw [hf] at hev
      rw [List.mem_singleton] at hev
      subst hev
      exact ⟨rfl, (find_code_sound p used code hf).2.2⟩

/-- The used set only grows across a site. -/
theorem runSite_mono (used : List String) (m : MetricsCollector)
    (s : SubmitSite) (t : String) (ht : used.contains t = true) :
    ((runSite used m s).2.1).contains t = true := by
  have haddT : ∀ u c, u.contains t = true → (addUsed u c).contains t = true := by
    intro u c h
    unfold addUsed
    split
    · exact h
    · simp_all
  cases s with
  | visible codes o =>
    rw [runSite]
    cases hf : codes.find? (fun c => !used.contains c) with
    | none => exact ht
    | some code =>
      simp only [submitAndCheck]
      split
      · split <;> exact haddT _ _ ht
      · exact ht
  | extract p o =>
    rw [runSite]
    cases hf : find_code p used with
    | none => exact ht
    | some code =>
      simp only [submitAndCheck]
      split
      · split <;> exact haddT _ _ ht
      · exact ht

/-- Core invariant: a token already in the used set is never submitted by
    any further sequence of sites. -/
theorem runSites_no_resubmit (sites : List SubmitSite) :
    ∀ (used : List String) (m : MetricsCollector) (t : String),
      used.contains t = true →
      ∀ ev ∈ (runSites sites used m).1, ev.1 ≠ t := by
  induction sites with
  | nil => intro used m t _ ev hev; simp [runSites] at hev
  | cons s ss ih =>
    intro used m t ht ev hev
    rw [runSites] at hev
    rw [List.mem_append] at hev
    rcases hev with hev | hev
    · obtain ⟨-, hfresh⟩ := runSite_event_fresh used m s ev hev
      intro hcontra
      rw [hcontra] at hfresh
      rw [ht] at hfresh
      cases hfresh
    · exact ih _ _ t (runSite_mono used m s t ht) ev hev

/-- **C1.** Once a token `t` is in the used-token set (after any
    submission, accepted or rejected), `submit` is never invoked with `t`
    again for the remainder of the run: splitting the run's submission
    sites at any point after which `t` is used, no later submit event
    carries `t`.  Every selecting path — the visible-code check and every
    extraction fallback inside `find_code` — excludes used codes. -/
theorem claim_C1_no_token_resubmitted (pre post : List SubmitSite)
    (used0 : List String) (m0 : MetricsCollector) (t : String)
    (ht : ((runSites pre used0 m0).2.1).contains t = true) :
    ∀ ev ∈ (runSites post (runSites pre used0 m0).2.1
              (runSites pre used0 m0).2.2).1, ev.1 ≠ t :=
  runSites_no_resubmit post _ _ t ht

/-- A later page whose green-success box shows `ZZ99QQ`. -/
def pageGreenLater : Page :=
  { pageGreenExample with green := ⟨["ZZ99QQ"], "", []⟩ }

/-- Witness for C1: after a first site submits `"AB12CD"` (accepted), the
    submit event of a later extraction site — `("ZZ99QQ", ["AB12CD"])`,
    concretely a member of that later trace — does not carry `"AB12CD"`
    again. -/
theorem claim_C1_witness :
    (("ZZ99QQ", ["AB12CD"]) : String × List String).1 ≠ "AB12CD" :=
  claim_C1_no_token_resubmitted
    [SubmitSite.visible ["AB12CD"] ⟨true, true, 5⟩]
    [SubmitSite.extract pageGreenLater ⟨true, true, 9⟩]
    [] {} "AB12CD" (by decide) ("ZZ99QQ", ["AB12CD"]) (by decide)

/-! ## `state.py`: `StateTracker.detect_step_from_url` -/

/-- Numeric value of a digit run (`int(m.group(1))`). -/
def digitsVal (l : List Char) : Nat :=
  l.foldl (fun n c => n * 10 + (c.toNat - '0'.toNat)) 0

/-- Leftmost match of `re.search(r"/step(\d+)", url)`: scan for `/step`
    followed by at least one digit, returning the greedy digit run's
    value. -/
def findStepL : List Char → Option Nat
  | [] => none
  | c :: cs =>
    match "/step".data.isPrefixOf? (c :: cs) with
    | some rest =>
      if (rest.takeWhile isDigitChar).isEmpty then findStepL cs
      else some (digitsVal (rest.takeWhile isDigitChar))
    | none => findStepL cs

/-- `re.search(r"/step(\d+)", url)` on a URL string. -/
def findStep (url : String) : Option Nat := findStepL url.data

/-- `StateTracker.detect_step_from_url` (lines 60-66): the parsed step
    number, falling back to the tracker's `current_step` when the URL
    carries none. -/
def detectStep (trackerStep : Nat) (url : String) : Nat :=
  (findStep url).getD trackerStep

/-! ## `Agent._try_skip_step` (`agent.py` lines 1717-1750) -/

/-- Environment responses to one `_try_skip_step` call. -/
structure SkipOracle where
  /-- the `pushState`/`popstate` evaluate call did not raise. -/
  evalOk : Bool
  /-- page URL observed after the navigation attempt. -/
  urlAfter : String
  /-- `inner_text("body")` after navigation; `none` = raised (text `""`). -/
  bodyText : Option String

/-- Outcome of `_try_skip_step`, tagged by the return path taken. -/
inductive SkipOutcome where
  /-- `next_step > total_steps`: returns `False` before navigating. -/
  | offLimit
  /-- the evaluate raised: returns `False` with no revert. -/
  | raised
  /-- the observed step differs from the target: returns `False`
      with no revert. -/
  | mismatch (actual : Nat)
  /-- the page rendered a 404/"broken link" body: `history.back()` is
      called (revert), then returns `False`. -/
  | notFoundPage
  /-- skip succeeded: returns `True`. -/
  | ok
deriving Repr, DecidableEq

/-- Whether the outcome corresponds to `return True`. -/
def SkipOutcome.succeeded : SkipOutcome → Bool
  | .ok => true
  | _ => false

/-- Whether `window.history.back()` was executed on this path. -/
def SkipOutcome.reverted : SkipOutcome → Bool
  | .notFoundPage => true
  | _ => false

/-- `_try_skip_step(current_step)`: navigate to `current_step + 1` via
    SPA pushState, verify the observed step and the absence of a
    404-style body. -/
def trySkipStep (totalSteps trackerStep cur : Nat) (o : SkipOracle) :
    SkipOutcome :=
  if cur + 1 > totalSteps then .offLimit
  else if !o.evalOk then .raised
  else if detectStep trackerStep o.urlAfter ≠ cur + 1 then
    .mismatch (detectStep trackerStep o.urlAfter)
  else if containsSub "not found" (lowerStr (o.bodyText.getD "")) ||
      containsSub "broken link" (lowerStr (o.bodyText.getD "")) then
    .notFoundPage
  else .ok

/-- A failing skip whose URL check mismatches: the SPA left the page on
    step 7 instead of 6. -/
def skipMismatchOracle : SkipOracle :=
  { evalOk := true, urlAfter := "https://example.com/step7", bodyText := some "Challenge Step 7" }

/-- **C8 (counterexample).** The claim that every failing offset reverts
    the navigation before the next offset is false: a step-mismatch
    failure returns `False` without ever executing `history.back()`. -/
theorem claim_C8_counterexample :
    trySkipStep 30 5 5 skipMismatchOracle = SkipOutcome.mismatch 7 ∧
    (trySkipStep 30 5 5 skipMismatchOracle).succeeded = false ∧
    (trySkipStep 30 5 5 skipMismatchOracle).reverted = false := by
  refine ⟨?_, ?_, ?_⟩ <;> decide

/-- **C8 (amended).** In `_try_skip_step` the navigation is reverted
    (`history.back()`) exactly on the error/"not found" failure path; the
    step-mismatch and exception failure paths return without reverting,
    and a successful offset is exactly one that passes the off-limit,
    evaluate, step-equality and 404 checks. -/
theorem claim_C8_amended (totalSteps trackerStep cur : Nat) (o : SkipOracle) :
    ((trySkipStep totalSteps trackerStep cur o).reverted = true ↔
      (cur + 1 ≤ totalSteps ∧ o.evalOk = true ∧
        detectStep trackerStep o.urlAfter = cur + 1 ∧
        (containsSub "not found" (lowerStr (o.bodyText.getD "")) = true ∨
         containsSub "broken link" (lowerStr (o.bodyText.getD "")) = true))) ∧
    ((trySkipStep totalSteps trackerStep cur o).succeeded = true ↔
      (cur + 1 ≤ totalSteps ∧ o.evalOk = true ∧
        detectStep trackerStep o.urlAfter = cur + 1 ∧
        containsSub "not found" (lowerStr (o.bodyText.getD "")) = false ∧
        containsSub "broken link" (lowerStr (o.bodyText.getD "")) = false)) := by
  unfold trySkipStep
  constructor
  · constructor
    · intro h
      split at h
      · simp [SkipOutcome.reverted] at h
      · split at h
        · simp [SkipOutcome.reverted] at h
        · split at h
          · simp [SkipOutcome.reverted] at h
          · split at h
            · next h1 h2 h3 h4 =>
                rw [Bool.or_eq_true] at h4
                exact ⟨by omega, by simpa using h2, by omega, h4⟩
            · simp [SkipOutcome.reverted] at h
    · rintro ⟨h1, h2, h3, h4⟩
      have hn1 : ¬ cur + 1 > totalSteps := by omega
      rw [if_neg hn1]
      rw [if_neg (by simp [h2])]
      rw [if_neg (by omega)]
      rw [if_pos (by rcases h4 with h | h <;> simp [h])]
      rfl
  · constructor
    · intro h
      split at h
      · simp [SkipOutcome.succeeded] at h
      · split at h
        · simp [SkipOutcome.succeeded] at h
        · split at h
          · simp [SkipOutcome.succeeded] at h
          · split at h
            · simp [SkipOutcome.succeeded] at h
            · next h1 h2 h3 h4 =>
                simp only [Bool.or_eq_true, not_or, Bool.not_eq_true] at h4
                exact ⟨by omega, by simpa using h2, by omega, h4.1, h4.2⟩
    · rintro ⟨h1, h2, h3, h4, h5⟩
      rw [if_neg (by omega)]
      rw [if_neg (by simp [h2])]
      rw [if_neg (by omega)]
      rw [if_neg (by simp [h4, h5])]
      rfl

/-- Witness for C8 (amended) at a successful concrete skip. -/
theorem claim_C8_witness :
    ((trySkipStep 30 5 5 ⟨true, "https://example.com/step6", some "Challenge Step 6"⟩).reverted = true ↔
      (5 + 1 ≤ 30 ∧ true = true ∧
        detectStep 5 "https://example.com/step6" = 5 + 1 ∧
        (containsSub "not found" (lowerStr ((some "Challenge Step 6").getD "")) = true ∨
         containsSub "broken link" (lowerStr ((some "Challenge Step 6").getD "")) = true))) ∧
    ((trySkipStep 30 5 5 ⟨true, "https://example.com/step6", some "Challenge Step 6"⟩).succeeded = true ↔
      (5 + 1 ≤ 30 ∧ true = true ∧
        detectStep 5 "https://example.com/step6" = 5 + 1 ∧
        containsSub "not found" (lowerStr ((some "Challenge Step 6").getD "")) = false ∧
        containsSub "broken link" (lowerStr ((some "Challenge Step 6").getD "")) = false)) :=
  claim_C8_amended 30 5 5 ⟨true, "https://example.com/step6", some "Challenge Step 6"⟩

/-! ## The main run loop (`Agent.run`, `agent.py` lines 959-1059)

One iteration of the `while` loop becomes a function of the loop state
and an oracle of environment responses.  Times are whole seconds. -/

/-- `max_step_total = 22.0` (line 966). -/
def maxStepTotal : Nat := 22

/-- `max_retries` default of `ChallengeConfig` (`config.py` line 17),
    read as `max_attempts` at line 960. -/
def defaultMaxRetries : Nat := 2

/-- `total_steps` default of `ChallengeConfig` (`config.py` line 14). -/
def defaultTotalSteps : Nat := 30

/-- The history entry appended on an attempt timeout (lines 1023-1026). -/
def timeoutEntry (attempts : Nat) : String :=
  "attempt " ++ toString (attempts + 1) ++
    ": TIMED OUT after 11s — try a faster/different approach"

/-- Loop state of `Agent.run`: the loop locals (`last_step`,
    `attempts_on_step`, `step_history`, `step_start_time`,
    `abandoned_steps`) plus the agent fields the claims concern
    (`StateTracker.current_step`, the metrics collector). -/
structure RunState where
  lastStep : Nat
  attempts : Nat
  history : List String
  stepStart : Nat
  abandoned : List Nat
  trackerStep : Nat
  metrics : MetricsCollector
deriving Repr, DecidableEq

/-- Outcome of `asyncio.wait_for(self._solve_step(...), timeout=11.0)`:
    `hApp` holds the entries `_solve_step` appended to the shared history
    list before returning (or before cancellation), `m` the metrics state
    after the attempt's own mutations. -/
inductive AttemptOutcome where
  | success (hApp : List String) (m : MetricsCollector)
  | failure (hApp : List String) (m : MetricsCollector)
  | timeout (hApp : List String) (m : MetricsCollector)

/-- Environment responses consumed by one loop iteration. -/
structure IterOracle where
  /-- `self.browser.page.url` at the top-of-loop observation. -/
  url : String
  /-- `time.time()` at line 986 (step-start reset on observed change). -/
  obsNow : Nat
  /-- `time.time()` at the line-989 ceiling check. -/
  ceilNow : Nat
  /-- `time.time()` used by the resets of the branch that ends the
      iteration, and by `end_step` in the timeout handler. -/
  endNow : Nat
  /-- outcome of the attempt, when one is made. -/
  attempt : AttemptOutcome
  /-- environment responses for the `_try_skip_step` call at offset `k`. -/
  skipOracles : Nat → SkipOracle

/-- Which branch of the loop body an iteration took. -/
inductive IterTag where
  /-- lines 970-972: observed step beyond `total_steps`; loop breaks (run
      succeeded). -/
  | doneAll
  /-- lines 974-976: observed step 0; sleep 0.5 s and `continue`. -/
  | backoff
  /-- lines 978-980: observed step already abandoned; loop breaks. -/
  | abandonBreak
  /-- lines 989-1004: per-step ceiling skip succeeded at offset `k`. -/
  | timeSkip (k : Nat)
  /-- lines 1005-1012: per-step ceiling skip failed everywhere; step
      abandoned, `continue`. -/
  | timeAbandon
  /-- lines 1029-1033: attempt succeeded. -/
  | attemptSuccess
  /-- lines 1034-1035: attempt failed, below the retry limit. -/
  | attemptFail
  /-- timeout recorded as a failed attempt, below the retry limit. -/
  | attemptTimeout
  /-- lines 1036-1051: retries exhausted, skip succeeded at offset `k`. -/
  | retrySkip (k : Nat)
  /-- lines 1052-1059: retries exhausted, all skips failed; step
      abandoned, `continue`. -/
  | retryAbandon
deriving Repr, DecidableEq

/-- `True` on the branches that reset the attempt counter and history. -/
def IterTag.isReset : IterTag → Bool
  | .attemptSuccess | .timeSkip _ | .timeAbandon | .retrySkip _
  | .retryAbandon => true
  | _ => false

/-- `True` on the branches in which the step was actually attempted. -/
def IterTag.attempted : IterTag → Bool
  | .attemptSuccess | .attemptFail | .attemptTimeout | .retrySkip _
  | .retryAbandon => true
  | _ => false

/-- Lines 982-986: when the observed step differs from `last_step`,
    reset the attempt counter, the history, and the step start time. -/
def observePhase (s : RunState) (cur obsNow : Nat) : RunState :=
  if cur ≠ s.lastStep then
    { s with lastStep := cur, attempts := 0, history := [], stepStart := obsNow }
  else s

/-- Python `set.add` on the abandoned-steps set. -/
def addAbandoned (l : List Nat) (n : Nat) : List Nat :=
  if l.contains n then l else l ++ [n]

/-- First offset in `range(1, 4)` whose skip call returns `True`. -/
def firstSkip (ok : Nat → Bool) : Option Nat :=
  if ok 1 then some 1 else if ok 2 then some 2 else if ok 3 then some 3
  else none

/-- Whether the skip call at offset `k` succeeds: the loop passes
    `current_step + skip_offset - 1` and `_try_skip_step` targets its
    argument plus one. -/
def skipOk (totalSteps tracker cur : Nat) (o : IterOracle) (k : Nat) : Bool :=
  (trySkipStep totalSteps tracker (cur + k - 1) (o.skipOracles k)).succeeded

/-- Reset performed when a skip offset succeeds (lines 998-1001 and
    1045-1048): assume the target step, clear counters and history. -/
def skipReset (s : RunState) (cur k endNow : Nat) : RunState :=
  { s with lastStep := cur + k, attempts := 0, history := [],
           stepStart := endNow }

/-- Abandonment (lines 1007-1011 and 1054-1058): add the stuck step to
    the abandoned set, assume `step + 1`, clear counters and history. -/
def abandonUpdate (s : RunState) (cur endNow : Nat) : RunState :=
  { s with abandoned := addAbandoned s.abandoned cur,
           lastStep := cur + 1, attempts := 0, history := [],
           stepStart := endNow }

/-- Success handling (lines 1029-1032), with `StateTracker.begin_step`
    having set `current_step` to the attempted step. -/
def successUpdate (s : RunState) (cur endNow : Nat)
    (mA : MetricsCollector) : RunState :=
  { s with trackerStep := cur, metrics := mA, attempts := 0,
           history := [], stepStart := endNow }

/-- Ordinary failure bookkeeping (line 1035): history extended by the
    attempt's own entries, counter incremented. -/
def failureUpdate (s : RunState) (cur : Nat) (hApp : List String)
    (mA : MetricsCollector) : RunState :=
  { s with trackerStep := cur, metrics := mA,
           history := s.history ++ hApp, attempts := s.attempts + 1 }

/-- Timeout bookkeeping (lines 1021-1028 plus line 1035): the timeout
    entry is appended, the open step metric is closed as a failure, and
    the counter is incremented exactly as on an ordinary failure. -/
def timeoutUpdate (s : RunState) (cur endNow : Nat) (hApp : List String)
    (mm : MetricsCollector) : RunState :=
  { s with trackerStep := cur,
           metrics := endStep mm endNow false "" "",
           history := s.history ++ hApp ++ [timeoutEntry s.attempts],
           attempts := s.attempts + 1 }

/-- Lines 1036-1059: once the counter reaches `max_attempts`, run the
    skip offsets; on success reset onto the target, otherwise abandon.
    Below the limit, keep the failed-attempt state. -/
def escalate (totalSteps maxRetries : Nat) (o : IterOracle) (cur : Nat)
    (s2 : RunState) (belowTag : IterTag) : RunState × IterTag :=
  if maxRetries ≤ s2.attempts then
    match firstSkip (skipOk totalSteps s2.trackerStep cur o) with
    | some k => (skipReset s2 cur k o.endNow, .retrySkip k)
    | none => (abandonUpdate s2 cur o.endNow, .retryAbandon)
  else (s2, belowTag)

/-- One iteration of the main loop body (lines 969-1059). -/
def runIter (totalSteps maxRetries : Nat) (s : RunState) (o : IterOracle) :
    RunState × IterTag :=
  let cur := detectStep s.trackerStep o.url
  if cur > totalSteps then (s, .doneAll)
  else if cur = 0 then (s, .backoff)
  else if s.abandoned.contains cur then (s, .abandonBreak)
  else
    let s1 := observePhase s cur o.obsNow
    if maxStepTotal < o.ceilNow - s1.stepStart ∧ 0 < s1.attempts then
      match firstSkip (skipOk totalSteps s1.trackerStep cur o) with
      | some k => (skipReset s1 cur k o.endNow, .timeSkip k)
      | none => (abandonUpdate s1 cur o.endNow, .timeAbandon)
    else
      match o.attempt with
      | .success _ mA => (successUpdate s1 cur o.endNow mA, .attemptSuccess)
      | .failure hApp mA =>
        escalate totalSteps maxRetries o cur (failureUpdate s1 cur hApp mA)
          .attemptFail
      | .timeout hApp mm =>
        escalate totalSteps maxRetries o cur
          (timeoutUpdate s1 cur o.endNow hApp mm) .attemptTimeout

/-! ## C3: the per-step ceiling requires at least one attempt -/

/-- An iteration state: step 5 under way, no attempt made yet. -/
def stateNoAttempt : RunState :=
  { lastStep := 5, attempts := 0, history := [], stepStart := 0,
    abandoned := [], trackerStep := 5, metrics := {} }

/-- An oracle with the per-step ceiling long exceeded (100 s on step 5)
    and a failing attempt. -/
def oracleCeilingExceeded : IterOracle :=
  { url := "https://example.com/step5", obsNow := 0, ceilNow := 100,
    endNow := 100,
    attempt := .failure ["attempt 1: actions=[], result=no code found"] {},
    skipOracles := fun _ => ⟨false, "", none⟩ }

/-- **C3 (counterexample).** The claim that the ceiling fires regardless
    of the attempt count is false: with the ceiling exceeded (100 s > 22 s)
    and zero attempts completed, the iteration does not invoke
    skip-forward — it proceeds to attempt the step (tag `attemptFail`). -/
theorem claim_C3_counterexample :
    maxStepTotal < oracleCeilingExceeded.ceilNow - stateNoAttempt.stepStart ∧
    stateNoAttempt.attempts = 0 ∧
    detectStep stateNoAttempt.trackerStep oracleCeilingExceeded.url = 5 ∧
    (runIter defaultTotalSteps defaultMaxRetries stateNoAttempt
      oracleCeilingExceeded).2 = IterTag.attemptFail := by
  refine ⟨by decide, by decide, by decide, by decide⟩

/-- **C3 (amended).** The run loop invokes the skip-forward procedure on
    an iteration exactly when the elapsed time on the current step
    exceeds the per-step ceiling **and** at least one attempt has been
    made; with zero attempts the loop proceeds to attempt the step even
    past the ceiling. -/
theorem claim_C3_amended (totalSteps maxRetries : Nat) (s : RunState)
    (o : IterOracle)
    (h1 : detectStep s.trackerStep o.url ≤ totalSteps)
    (h2 : detectStep s.trackerStep o.url ≠ 0)
    (h3 : s.abandoned.contains (detectStep s.trackerStep o.url) = false) :
    ((runIter totalSteps maxRetries s o).2 = IterTag.timeAbandon ∨
      ∃ k, (runIter totalSteps maxRetries s o).2 = IterTag.timeSkip k) ↔
    (maxStepTotal < o.ceilNow -
        (observePhase s (detectStep s.trackerStep o.url) o.obsNow).stepStart ∧
      0 < (observePhase s (detectStep s.trackerStep o.url) o.obsNow).attempts) := by
  simp only [runIter]
  rw [if_neg (by omega)]
  rw [if_neg h2]
  rw [if_neg (fun hcontra => by rw [h3] at hcontra; cases hcontra)]
  split
  · next hcond =>
      constructor
      · intro _; exact hcond
      · intro _
        cases firstSkip (skipOk totalSteps
            (observePhase s (detectStep s.trackerStep o.url) o.obsNow).trackerStep
            (detectStep s.trackerStep o.url) o) with
        | some k => exact Or.inr ⟨k, rfl⟩
        | none => exact Or.inl rfl
  · next hcond =>
      constructor
      · intro hdisj
        exfalso
        rcases hdisj with h | ⟨k', h⟩
        · split at h
          · simp at h
          · unfold escalate at h
            split at h
            · split at h <;> simp at h
            · simp at h
          · unfold escalate at h
            split at h
            · split at h <;> simp at h
            · simp at h
        · split at h
          · simp at h
          · unfold escalate at h
            split at h
            · split at h <;> simp at h
            · simp at h
          · unfold escalate at h
            split at h
            · split at h <;> simp at h
            · simp at h
      · intro hc
        exact absurd hc hcond

/-- Witness for C3 (amended): step 5 with one attempt made and 100 s
    elapsed does invoke skip-forward. -/
theorem claim_C3_witness :
    (((runIter defaultTotalSteps defaultMaxRetries
        { stateNoAttempt with attempts := 1 } oracleCeilingExceeded).2 =
          IterTag.timeAbandon ∨
      ∃ k, (runIter defaultTotalSteps defaultMaxRetries
        { stateNoAttempt with attempts := 1 } oracleCeilingExceeded).2 =
          IterTag.timeSkip k) ↔
    (maxStepTotal < oracleCeilingExceeded.ceilNow -
        (observePhase { stateNoAttempt with attempts := 1 }
          (detectStep { stateNoAttempt with attempts := 1 }.trackerStep
            oracleCeilingExceeded.url)
          oracleCeilingExceeded.obsNow).stepStart ∧
      0 < (observePhase { stateNoAttempt with attempts := 1 }
          (detectStep { stateNoAttempt with attempts := 1 }.trackerStep
            oracleCeilingExceeded.url)
          oracleCeilingExceeded.obsNow).attempts)) :=
  claim_C3_amended defaultTotalSteps defaultMaxRetries
    { stateNoAttempt with attempts := 1 } oracleCeilingExceeded
    (by decide) (by decide) (by decide)

/-! ## C9: unknown-step backoff -/

/-- An oracle whose URL carries no step number. -/
def oracleNoStepUrl : IterOracle :=
  { url := "https://example.com/", obsNow := 1, ceilNow := 1, endNow := 1,
    attempt := .failure [] {},
    skipOracles := fun _ => ⟨false, "", none⟩ }

/-- **C9 (counterexample).** The claim that the loop observes an unknown
    step and backs off whenever the URL contains no step number is false:
    `detect_step_from_url` falls back to the tracker's current step (5
    here), so the iteration attempts the step instead of backing off. -/
theorem claim_C9_counterexample :
    findStep "https://example.com/" = none ∧
    detectStep stateNoAttempt.trackerStep oracleNoStepUrl.url = 5 ∧
    (runIter defaultTotalSteps defaultMaxRetries stateNoAttempt
      oracleNoStepUrl).2 ≠ IterTag.backoff ∧
    (runIter defaultTotalSteps defaultMaxRetries stateNoAttempt
      oracleNoStepUrl).2 = IterTag.attemptFail := by
  refine ⟨by decide, by decide, by decide, by decide⟩

/-- **C9 (amended).** When the URL contains no step number the detector
    returns the tracker's last step, not an unknown marker; the backoff
    branch executes exactly when the observed step is `0` (a literal
    `/step0` URL), and it leaves the loop state unchanged. -/
theorem claim_C9_amended (totalSteps maxRetries : Nat) (s : RunState)
    (o : IterOracle) :
    (findStep o.url = none → detectStep s.trackerStep o.url = s.trackerStep) ∧
    ((runIter totalSteps maxRetries s o).2 = IterTag.backoff ↔
      detectStep s.trackerStep o.url = 0) ∧
    ((runIter totalSteps maxRetries s o).2 = IterTag.backoff →
      (runIter totalSteps maxRetries s o).1 = s) := by
  refine ⟨?_, ?_, ?_⟩
  · intro h
    unfold detectStep
    rw [h]
    rfl
  · simp only [runIter]
    split
    · next hgt =>
        constructor
        · intro h; simp at h
        · intro h; omega
    · split
      · next h0 => simp [h0]
      · next h0 =>
          split
          · constructor
            · intro h; simp at h
            · intro h; exact absurd h h0
          · split
            · constructor
              · intro h
                split at h <;> simp at h
              · intro h; exact absurd h h0
            · constructor
              · intro h
                split at h
                · simp at h
                · unfold escalate at h
                  split at h
                  · split at h <;> simp at h
                  · simp at h
                · unfold escalate at h
                  split at h
                  · split at h <;> simp at h
                  · simp at h
              · intro h; exact absurd h h0
  · simp only [runIter]
    split
    · intro h; simp at h
    · split
      · intro _; rfl
      · split
        · intro h; simp at h
        · split
          · intro h
            split at h <;> simp at h
          · intro h
            split at h
            · simp at h
            · unfold escalate at h
              split at h
              · split at h <;> simp at h
              · simp at h
            · unfold escalate at h
              split at h
              · split at h <;> simp at h
              · simp at h

/-- Witness for C9 (amended) at the no-step-number oracle. -/
theorem claim_C9_witness :
    (findStep oracleNoStepUrl.url = none →
      detectStep stateNoAttempt.trackerStep oracleNoStepUrl.url =
        stateNoAttempt.trackerStep) ∧
    ((runIter defaultTotalSteps defaultMaxRetries stateNoAttempt
        oracleNoStepUrl).2 = IterTag.backoff ↔
      detectStep stateNoAttempt.trackerStep oracleNoStepUrl.url = 0) ∧
    ((runIter defaultTotalSteps defaultMaxRetries stateNoAttempt
        oracleNoStepUrl).2 = IterTag.backoff →
      (runIter defaultTotalSteps defaultMaxRetries stateNoAttempt
        oracleNoStepUrl).1 = stateNoAttempt) :=
  claim_C9_amended defaultTotalSteps defaultMaxRetries stateNoAttempt
    oracleNoStepUrl

/-! ## C4: counter and history reset on observed-step change -/

/-- **C4.** Immediately after the observed step changes away from the
    last observed one, the attempt counter is exactly 0 and the history
    is empty (and the loop adopts the new step); when the observed step
    is unchanged the observe phase alters nothing; and across a whole
    iteration the counter/history end up reset only through an
    observed-step change, a success, a skip, or an abandonment (or
    because they already were reset). -/
theorem claim_C4_reset_on_observed_change (totalSteps maxRetries : Nat)
    (s : RunState) (o : IterOracle) (s' : RunState) (tag : IterTag)
    (hEq : runIter totalSteps maxRetries s o = (s', tag)) :
    (detectStep s.trackerStep o.url ≠ s.lastStep →
      (observePhase s (detectStep s.trackerStep o.url) o.obsNow).attempts = 0 ∧
      (observePhase s (detectStep s.trackerStep o.url) o.obsNow).history = [] ∧
      (observePhase s (detectStep s.trackerStep o.url) o.obsNow).lastStep =
        detectStep s.trackerStep o.url) ∧
    (detectStep s.trackerStep o.url = s.lastStep →
      observePhase s (detectStep s.trackerStep o.url) o.obsNow = s) ∧
    ((s'.attempts = 0 ∧ s'.history = []) →
      (tag.isReset = true ∨ (s.attempts = 0 ∧ s.history = []))) := by
  refine ⟨?_, ?_, ?_⟩
  · intro h
    unfold observePhase
    rw [if_pos h]
    exact ⟨rfl, rfl, rfl⟩
  · intro h
    unfold observePhase
    rw [if_neg (fun hc => hc h)]
  · intro hzero
    simp only [runIter] at hEq
    split at hEq
    · injection hEq with e1 e2
      subst e1; subst e2
      exact Or.inr hzero
    · split at hEq
      · injection hEq with e1 e2
        subst e1; subst e2
        exact Or.inr hzero
      · split at hEq
        · injection hEq with e1 e2
          subst e1; subst e2
          exact Or.inr hzero
        · split at hEq
          · split at hEq
            · injection hEq with e1 e2
              subst e2
              exact Or.inl rfl
            · injection hEq with e1 e2
              subst e2
              exact Or.inl rfl
          · split at hEq
            · injection hEq with e1 e2
              subst e2
              exact Or.inl rfl
            · unfold escalate at hEq
              split at hEq
              · split at hEq
                · injection hEq with e1 e2
                  subst e2
                  exact Or.inl rfl
                · injection hEq with e1 e2
                  subst e2
                  exact Or.inl rfl
              · injection hEq with e1 e2
                subst e1
                simp [failureUpdate] at hzero
            · unfold escalate at hEq
              split at hEq
              · split at hEq
                · injection hEq with e1 e2
                  subst e2
                  exact Or.inl rfl
                · injection hEq with e1 e2
                  subst e2
                  exact Or.inl rfl
              · injection hEq with e1 e2
                subst e1
                simp [timeoutUpdate] at hzero

/-- Witness for C4 at a concrete iteration (observed step equals the
    tracked one; a failed attempt increments the counter). -/
theorem claim_C4_witness :
    (detectStep stateNoAttempt.trackerStep oracleNoStepUrl.url ≠
        stateNoAttempt.lastStep →
      (observePhase stateNoAttempt
        (detectStep stateNoAttempt.trackerStep oracleNoStepUrl.url)
        oracleNoStepUrl.obsNow).attempts = 0 ∧
      (observePhase stateNoAttempt
        (detectStep stateNoAttempt.trackerStep oracleNoStepUrl.url)
        oracleNoStepUrl.obsNow).history = [] ∧
      (observePhase stateNoAttempt
        (detectStep stateNoAttempt.trackerStep oracleNoStepUrl.url)
        oracleNoStepUrl.obsNow).lastStep =
        detectStep stateNoAttempt.trackerStep oracleNoStepUrl.url) ∧
    (detectStep stateNoAttempt.trackerStep oracleNoStepUrl.url =
        stateNoAttempt.lastStep →
      observePhase stateNoAttempt
        (detectStep stateNoAttempt.trackerStep oracleNoStepUrl.url)
        oracleNoStepUrl.obsNow = stateNoAttempt) ∧
    ((({ lastStep := 5, attempts := 1, history := [], stepStart := 0,
          abandoned := [], trackerStep := 5,
          metrics := {} } : RunState).attempts = 0 ∧
      ({ lastStep := 5, attempts := 1, history := [], stepStart := 0,
          abandoned := [], trackerStep := 5,
          metrics := {} } : RunState).history = []) →
      (IterTag.attemptFail.isReset = true ∨
        (stateNoAttempt.attempts = 0 ∧ stateNoAttempt.history = []))) :=
  claim_C4_reset_on_observed_change defaultTotalSteps defaultMaxRetries
    stateNoAttempt oracleNoStepUrl
    { lastStep := 5, attempts := 1, history := [], stepStart := 0,
      abandoned := [], trackerStep := 5, metrics := {} }
    IterTag.attemptFail (by decide)

/-! ## C5: a per-attempt timeout is an ordinary failed attempt -/

theorem sub_append_left (nd : List Char) (pre h : List Char)
    (hh : listContainsSub nd h = true) :
    listContainsSub nd (pre ++ h) = true := by
  induction pre with
  | nil => simpa using hh
  | cons c cs ih =>
    rw [List.cons_append, listContainsSub, Bool.or_eq_true]
    exact Or.inr ih

/-- The timeout history entry contains the phrase "timed out"
    (case-insensitively), for every attempt index. -/
theorem timeoutEntry_contains_timed_out (n : Nat) :
    listContainsSub "timed out".data
      ((timeoutEntry n).data.map Char.toLower) = true := by
  unfold timeoutEntry
  rw [String.data_append, String.data_append, List.map_append,
    List.map_append]
  apply sub_append_left
  decide

/-- **C5.** When the per-attempt timeout fires, the attempt is recorded
    as an ordinary failed attempt: the "TIMED OUT" entry (containing
    "timed out" case-insensitively) is appended to the history, the open
    step metric is closed as a failure, and the counter is incremented by
    one exactly as for an ordinary failure — after which the iteration
    escalates through the very same `escalate` logic as a failure. -/
theorem claim_C5_timeout_ordinary_failure (totalSteps maxRetries : Nat)
    (s : RunState) (o : IterOracle) (hApp : List String)
    (mm : MetricsCollector) (cur : Nat) (s1 : RunState)
    (hcur : cur = detectStep s.trackerStep o.url)
    (hs1 : s1 = observePhase s cur o.obsNow)
    (hA : o.attempt = .timeout hApp mm)
    (h1 : cur ≤ totalSteps) (h2 : cur ≠ 0)
    (h3 : s.abandoned.contains cur = false)
    (h4 : ¬(maxStepTotal < o.ceilNow - s1.stepStart ∧ 0 < s1.attempts)) :
    runIter totalSteps maxRetries s o =
      escalate totalSteps maxRetries o cur
        (timeoutUpdate s1 cur o.endNow hApp mm) IterTag.attemptTimeout ∧
    (timeoutUpdate s1 cur o.endNow hApp mm).history =
      s1.history ++ hApp ++ [timeoutEntry s1.attempts] ∧
    listContainsSub "timed out".data
      ((timeoutEntry s1.attempts).data.map Char.toLower) = true ∧
    (timeoutUpdate s1 cur o.endNow hApp mm).attempts = s1.attempts + 1 ∧
    (failureUpdate s1 cur hApp mm).attempts =
      (timeoutUpdate s1 cur o.endNow hApp mm).attempts ∧
    (timeoutUpdate s1 cur o.endNow hApp mm).metrics =
      endStep mm o.endNow false "" "" ∧
    (mm.current.isSome = true →
      (timeoutUpdate s1 cur o.endNow hApp mm).metrics.steps.length =
        mm.steps.length + 1 ∧
      (timeoutUpdate s1 cur o.endNow hApp mm).metrics.current = none ∧
      ((timeoutUpdate s1 cur o.endNow hApp mm).metrics.steps.getLast?).map
        StepMetric.success = some false) := by
  subst hcur
  subst hs1
  refine ⟨?_, rfl, timeoutEntry_contains_timed_out _, rfl, rfl, rfl, ?_⟩
  · simp only [runIter]
    rw [if_neg (by omega)]
    rw [if_neg h2]
    rw [if_neg (fun hcontra => by rw [h3] at hcontra; cases hcontra)]
    rw [if_neg h4]
    rw [hA]
  · intro hsome
    cases hc : mm.current with
    | none => rw [hc] at hsome; cases hsome
    | some cm =>
      unfold timeoutUpdate endStep
      rw [hc]
      refine ⟨by simp, rfl, ?_⟩
      rw [List.getLast?_concat]
      rfl

/-- Concrete in-flight metric for the C5 witness. -/
def mmOpen : MetricsCollector :=
  { steps := [], stepStart := 2, current := some { step := 5 } }

/-- Oracle for the C5 witness: the attempt times out. -/
def oracleTimeout : IterOracle :=
  { url := "https://example.com/step5", obsNow := 1, ceilNow := 3,
    endNow := 13, attempt := .timeout [] mmOpen,
    skipOracles := fun _ => ⟨false, "", none⟩ }

/-- Witness for C5 at a concrete timed-out attempt on step 5. -/
theorem claim_C5_witness :
    runIter defaultTotalSteps defaultMaxRetries stateNoAttempt
        oracleTimeout =
      escalate defaultTotalSteps defaultMaxRetries oracleTimeout 5
        (timeoutUpdate stateNoAttempt 5 oracleTimeout.endNow [] mmOpen)
        IterTag.attemptTimeout ∧
    (timeoutUpdate stateNoAttempt 5 oracleTimeout.endNow [] mmOpen).history =
      stateNoAttempt.history ++ [] ++ [timeoutEntry stateNoAttempt.attempts] ∧
    listContainsSub "timed out".data
      ((timeoutEntry stateNoAttempt.attempts).data.map Char.toLower) = true ∧
    (timeoutUpdate stateNoAttempt 5 oracleTimeout.endNow [] mmOpen).attempts =
      stateNoAttempt.attempts + 1 ∧
    (failureUpdate stateNoAttempt 5 [] mmOpen).attempts =
      (timeoutUpdate stateNoAttempt 5 oracleTimeout.endNow [] mmOpen).attempts ∧
    (timeoutUpdate stateNoAttempt 5 oracleTimeout.endNow [] mmOpen).metrics =
      endStep mmOpen oracleTimeout.endNow false "" "" ∧
    (mmOpen.current.isSome = true →
      (timeoutUpdate stateNoAttempt 5 oracleTimeout.endNow []
          mmOpen).metrics.steps.length = mmOpen.steps.length + 1 ∧
      (timeoutUpdate stateNoAttempt 5 oracleTimeout.endNow []
          mmOpen).metrics.current = none ∧
      ((timeoutUpdate stateNoAttempt 5 oracleTimeout.endNow []
          mmOpen).metrics.steps.getLast?).map StepMetric.success =
        some false) :=
  claim_C5_timeout_ordinary_failure defaultTotalSteps defaultMaxRetries
    stateNoAttempt oracleTimeout [] mmOpen 5 stateNoAttempt
    (by decide) (by decide) rfl (by decide) (by decide) (by decide)
    (by decide)

/-! ## C2: abandonment after all skip offsets fail -/

/-- Stuck on step 3 with one failed attempt already recorded
    (`max_retries = 2`). -/
def stateStuck : RunState :=
  { lastStep := 3, attempts := 1,
    history := ["attempt 1: actions=[], result=no code found"],
    stepStart := 0, abandoned := [], trackerStep := 3, metrics := {} }

/-- The attempt fails again and every skip offset fails (the navigation
    evaluate raises each time). -/
def oracleAllSkipsFail : IterOracle :=
  { url := "https://example.com/step3", obsNow := 0, ceilNow := 5,
    endNow := 6,
    attempt := .failure ["attempt 2: actions=[], result=no code found"] {},
    skipOracles := fun _ => ⟨false, "", none⟩ }

/-- The next iteration still observes step 3 (the failed skips left the
    page on the stuck step). -/
def oracleStillStep3 : IterOracle :=
  { url := "https://example.com/step3", obsNow := 7, ceilNow := 7,
    endNow := 7, attempt := .failure [] {},
    skipOracles := fun _ => ⟨false, "", none⟩ }

/-- **C2 (counterexample).** After the retry limit is hit and all skip
    offsets fail, the step is abandoned and the iteration continues —
    but on the next loop iteration the page still shows the abandoned
    step, the loop hits the abandoned-step check and **breaks**: the run
    terminates instead of proceeding to attempt step+1. -/
theorem claim_C2_counterexample :
    (runIter defaultTotalSteps defaultMaxRetries stateStuck
      oracleAllSkipsFail).2 = IterTag.retryAbandon ∧
    (runIter defaultTotalSteps defaultMaxRetries stateStuck
      oracleAllSkipsFail).1.abandoned = [3] ∧
    (runIter defaultTotalSteps defaultMaxRetries stateStuck
      oracleAllSkipsFail).1.lastStep = 4 ∧
    (runIter defaultTotalSteps defaultMaxRetries
      (runIter defaultTotalSteps defaultMaxRetries stateStuck
        oracleAllSkipsFail).1 oracleStillStep3).2 = IterTag.abandonBreak ∧
    (runIter defaultTotalSteps defaultMaxRetries
      (runIter defaultTotalSteps defaultMaxRetries stateStuck
        oracleAllSkipsFail).1 oracleStillStep3).2.attempted = false := by
  refine ⟨by decide, by decide, by decide, by decide, by decide⟩

/-- **C2 (amended).** When the counter reaches the retry limit and every
    skip offset fails, the stuck step is added to the abandoned set
    exactly once, the counter and history are reset, the tracked step is
    set to step+1 and the iteration continues; on the next iteration the
    run attempts step+1 only if the environment actually observes
    step+1 — if it still observes the abandoned step, the loop breaks
    (the run terminates). -/
theorem claim_C2_abandon_exactly_once (totalSteps maxRetries : Nat)
    (s : RunState) (o : IterOracle) (hApp : List String)
    (mA : MetricsCollector) (cur : Nat) (s1 : RunState)
    (oSame oNext : IterOracle)
    (hcur : cur = detectStep s.trackerStep o.url)
    (hs1 : s1 = observePhase s cur o.obsNow)
    (hA : o.attempt = .failure hApp mA)
    (h1 : cur ≤ totalSteps) (h2 : cur ≠ 0)
    (h3 : s.abandoned.contains cur = false)
    (h4 : ¬(maxStepTotal < o.ceilNow - s1.stepStart ∧ 0 < s1.attempts))
    (h5 : maxRetries ≤ s1.attempts + 1)
    (h6 : ∀ k, skipOk totalSteps cur cur o k = false)
    (h7 : s.abandoned.contains (cur + 1) = false)
    (hSame : detectStep
      (runIter totalSteps maxRetries s o).1.trackerStep oSame.url = cur)
    (hNext : detectStep
      (runIter totalSteps maxRetries s o).1.trackerStep oNext.url = cur + 1)
    (hNextLe : cur + 1 ≤ totalSteps) :
    (runIter totalSteps maxRetries s o).2 = IterTag.retryAbandon ∧
    (runIter totalSteps maxRetries s o).1.abandoned =
      s.abandoned ++ [cur] ∧
    ((runIter totalSteps maxRetries s o).1.abandoned).count cur = 1 ∧
    (runIter totalSteps maxRetries s o).1.attempts = 0 ∧
    (runIter totalSteps maxRetries s o).1.history = [] ∧
    (runIter totalSteps maxRetries s o).1.lastStep = cur + 1 ∧
    (runIter totalSteps maxRetries
      (runIter totalSteps maxRetries s o).1 oSame).2 =
        IterTag.abandonBreak ∧
    (runIter totalSteps maxRetries
      (runIter totalSteps maxRetries s o).1 oNext).2.attempted = true := by
  subst hcur
  subst hs1
  have hmem : detectStep s.trackerStep o.url ∉ s.abandoned := by
    intro hmem
    have : s.abandoned.contains (detectStep s.trackerStep o.url) = true := by
      simpa using hmem
    rw [h3] at this
    cases this
  have hrun : runIter totalSteps maxRetries s o =
      (abandonUpdate
        (failureUpdate
          (observePhase s (detectStep s.trackerStep o.url) o.obsNow)
          (detectStep s.trackerStep o.url) hApp mA)
        (detectStep s.trackerStep o.url) o.endNow, IterTag.retryAbandon) := by
    simp only [runIter]
    rw [if_neg (by omega)]
    rw [if_neg h2]
    rw [if_neg (fun hcontra => by rw [h3] at hcontra; cases hcontra)]
    rw [if_neg h4]
    rw [hA]
    show escalate totalSteps maxRetries o (detectStep s.trackerStep o.url)
      (failureUpdate (observePhase s (detectStep s.trackerStep o.url) o.obsNow)
        (detectStep s.trackerStep o.url) hApp mA) IterTag.attemptFail = _
    unfold escalate
    rw [if_pos (show maxRetries ≤ (failureUpdate
        (observePhase s (detectStep s.trackerStep o.url) o.obsNow)
        (detectStep s.trackerStep o.url) hApp mA).attempts from h5)]
    have hfs : firstSkip (skipOk totalSteps
        (failureUpdate
          (observePhase s (detectStep s.trackerStep o.url) o.obsNow)
          (detectStep s.trackerStep o.url) hApp mA).trackerStep
        (detectStep s.trackerStep o.url) o) = none := by
      unfold firstSkip
      have ht : (failureUpdate
          (observePhase s (detectStep s.trackerStep o.url) o.obsNow)
          (detectStep s.trackerStep o.url) hApp mA).trackerStep =
          detectStep s.trackerStep o.url := rfl
      rw [ht, h6 1, h6 2, h6 3]
      rfl
    rw [hfs]
  have hObsAb : (observePhase s (detectStep s.trackerStep o.url)
      o.obsNow).abandoned = s.abandoned := by
    unfold observePhase
    split <;> rfl
  have habandoned : (runIter totalSteps maxRetries s o).1.abandoned =
      s.abandoned ++ [detectStep s.trackerStep o.url] := by
    rw [hrun]
    show addAbandoned (observePhase s (detectStep s.trackerStep o.url)
      o.obsNow).abandoned (detectStep s.trackerStep o.url) = _
    rw [hObsAb]
    unfold addAbandoned
    rw [if_neg (fun hcontra => by rw [h3] at hcontra; cases hcontra)]
  refine ⟨by rw [hrun], habandoned, ?_, by rw [hrun]; rfl,
    by rw [hrun]; rfl, by rw [hrun]; rfl, ?_, ?_⟩
  · rw [habandoned, List.count_append]
    have hc0 : s.abandoned.count (detectStep s.trackerStep o.url) = 0 :=
      List.count_eq_zero.mpr hmem
    rw [hc0]
    simp
  · -- next iteration, same step observed: abandoned-step break
    generalize hg : (runIter totalSteps maxRetries s o).1 = s2 at hSame habandoned ⊢
    simp only [runIter]
    rw [hSame]
    rw [if_neg (by omega)]
    rw [if_neg h2]
    rw [if_pos (show s2.abandoned.contains
        (detectStep s.trackerStep o.url) = true by
      rw [habandoned]; simp)]
  · -- next iteration, step+1 observed: the step is attempted
    generalize hg : (runIter totalSteps maxRetries s o).1 = s2 at hNext habandoned ⊢
    rw [hrun] at hg
    have hlast : s2.lastStep = detectStep s.trackerStep o.url + 1 := by
      rw [← hg]; rfl
    have hatt : s2.attempts = 0 := by
      rw [← hg]; rfl
    simp only [runIter]
    rw [hNext]
    rw [if_neg (by omega)]
    rw [if_neg (by omega)]
    rw [if_neg (show ¬(s2.abandoned.contains
        (detectStep s.trackerStep o.url + 1) = true) by
      intro hcontra
      rw [habandoned] at hcontra
      have hmem2 : detectStep s.trackerStep o.url + 1 ∈
          s.abandoned ++ [detectStep s.trackerStep o.url] := by
        simpa using hcontra
      rw [List.mem_append] at hmem2
      rcases hmem2 with hm | hm
      · have hc2 : s.abandoned.contains
            (detectStep s.trackerStep o.url + 1) = true := by
          simpa using hm
        rw [h7] at hc2
        cases hc2
      · rw [List.mem_singleton] at hm
        omega)]
    have hobs : observePhase s2
        (detectStep s.trackerStep o.url + 1) oNext.obsNow = s2 := by
      unfold observePhase
      rw [if_neg (fun hc => hc hlast.symm)]
    rw [hobs]
    rw [if_neg (show ¬(maxStepTotal < oNext.ceilNow - s2.stepStart ∧
        0 < s2.attempts) by
      rintro ⟨-, hpos⟩
      rw [hatt] at hpos
      cases hpos)]
    split
    · rfl
    · unfold escalate
      split
      · split <;> rfl
      · rfl
    · unfold escalate
      split
      · split <;> rfl
      · rfl

/-- Witness for C2 (amended) at the concrete stuck-step run. -/
theorem claim_C2_witness :
    (runIter defaultTotalSteps defaultMaxRetries stateStuck
      oracleAllSkipsFail).2 = IterTag.retryAbandon ∧
    (runIter defaultTotalSteps defaultMaxRetries stateStuck
      oracleAllSkipsFail).1.abandoned = stateStuck.abandoned ++ [3] ∧
    ((runIter defaultTotalSteps defaultMaxRetries stateStuck
      oracleAllSkipsFail).1.abandoned).count 3 = 1 ∧
    (runIter defaultTotalSteps defaultMaxRetries stateStuck
      oracleAllSkipsFail).1.attempts = 0 ∧
    (runIter defaultTotalSteps defaultMaxRetries stateStuck
      oracleAllSkipsFail).1.history = [] ∧
    (runIter defaultTotalSteps defaultMaxRetries stateStuck
      oracleAllSkipsFail).1.lastStep = 3 + 1 ∧
    (runIter defaultTotalSteps defaultMaxRetries
      (runIter defaultTotalSteps defaultMaxRetries stateStuck
        oracleAllSkipsFail).1 oracleStillStep3).2 = IterTag.abandonBreak ∧
    (runIter defaultTotalSteps defaultMaxRetries
      (runIter defaultTotalSteps defaultMaxRetries stateStuck
        oracleAllSkipsFail).1
      { url := "https://example.com/step4", obsNow := 8, ceilNow := 8,
        endNow := 8, attempt := .failure [] {},
        skipOracles := fun _ => ⟨false, "", none⟩ }).2.attempted = true :=
  claim_C2_abandon_exactly_once defaultTotalSteps defaultMaxRetries
    stateStuck oracleAllSkipsFail
    ["attempt 2: actions=[], result=no code found"] {} 3 stateStuck
    oracleStillStep3
    { url := "https://example.com/step4", obsNow := 8, ceilNow := 8,
      endNow := 8, attempt := .failure [] {},
      skipOracles := fun _ => ⟨false, "", none⟩ }
    (by decide) (by decide) rfl (by decide) (by decide) (by decide)
    (by decide) (by decide)
    (by intro k; unfold skipOk trySkipStep; split <;> rfl)
    (by decide) (by decide) (by decide) (by decide)

/-! ## Tier 0: `_parse_instruction_actions` (`agent.py` lines 21-478)

The function is pure: it reads only the lowercased instruction text and
the element list (it takes no history).  The JS programs it builds as
strings are inert data the core never inspects; they are represented by
parameterized templates capturing the interpolated values. -/

/-- Stand-ins for the JS programs built by `_parse_instruction_actions`,
    one constructor per template with its interpolated parameters. -/
inductive JsTemplate where
  /-- "click here N times" JS (lines 40-76). -/
  | clickHereTimes (n : Nat)
  /-- capture-button JS (lines 151-161), parameter `n_cap`. -/
  | captureClicks (n : Nat)
  /-- trigger-mutation JS (lines 168-182), parameter `n_mutations`. -/
  | mutationClicks (n : Nat)
  /-- audio play-and-complete JS (lines 187-201). -/
  | audioPlay
  /-- named-button polling-loop JS (lines 211-225). -/
  | clickNamedLoop (name : String)
  /-- named-button single-click JS (lines 229-237). -/
  | clickNamedOnce (name : String)
  /-- video seek JS (lines 242-261). -/
  | videoSeek
  /-- `_PUZZLE_SOLVE_JS` (line 275). -/
  | puzzleSolve
  /-- tab-visiting JS (lines 279-292). -/
  | tabVisit
  /-- nested iframe/shadow layer JS (lines 301-471), parameter `n_levels`. -/
  | iframeLayers (n : Nat)
deriving Repr, DecidableEq

/-- An `Action.value`: the default empty string, a literal marker, or a
    built JS program. -/
inductive ActionValue where
  | empty
  | lit (s : String)
  | js (t : JsTemplate)
deriving Repr, DecidableEq

/-- `Action` (`actions.py` lines 10-24); the float `duration` in whole
    seconds. -/
structure Action where
  type : String
  element : Option Nat := none
  selector : String := ""
  value : ActionValue := .empty
  amount : Nat := 0
  toElement : Option Nat := none
  duration : Nat := 0
deriving Repr, DecidableEq

/-- `ElementInfo` (`perception.py` lines 29-41), restricted to the fields
    `_parse_instruction_actions` reads; bbox dimensions in whole pixels
    (`none` = no bbox). -/
structure ElementInfo where
  index : Nat
  tag : String
  name : String := ""
  extra : String := ""
  bbox : Option (Nat × Nat) := none
deriving Repr, DecidableEq

/-! ### Anchored matchers for the instruction regexes

Each Python regex becomes an anchored matcher tried at every start
position (`reSearch` = `re.search` leftmost semantics).  The optional
groups commit greedily; for each pattern below, an optional group's
first literal character can never start the continuation, so no
backtracking across alternatives is required. -/

/-- Anchored literal: consume `s`, return the rest. -/
def litP (s : String) (l : List Char) : Option (List Char) :=
  s.data.isPrefixOf? l

/-- Greedy `(\d+)` capture with its value. -/
def takeDigits1 (l : List Char) : Option (Nat × List Char) :=
  if (l.takeWhile isDigitChar).isEmpty then none
  else some (digitsVal (l.takeWhile isDigitChar),
    l.drop (l.takeWhile isDigitChar).length)

/-- Greedy `(\w+)` capture. -/
def takeWord1 (l : List Char) : Option (List Char × List Char) :=
  if (l.takeWhile isWordChar).isEmpty then none
  else some (l.takeWhile isWordChar, l.drop (l.takeWhile isWordChar).length)

/-- `\s*`. -/
def dropSpaces (l : List Char) : List Char := l.dropWhile isSpaceChar

/-- Leftmost-match search: try the anchored matcher at every position. -/
def reSearch {α : Type} (m : List Char → Option α) : List Char → Option α
  | [] => m []
  | c :: cs => m (c :: cs) <|> reSearch m cs

/-- `click (?:here |the \w+ )?(\d+)\s*(?:more )?times?` (line 35). -/
def clickTimesAt (l : List Char) : Option Nat :=
  match litP "click " l with
  | none => none
  | some r =>
    let r1 := match litP "here " r with
      | some r2 => r2
      | none =>
        match litP "the " r with
        | some r2 =>
          match takeWord1 r2 with
          | some (_, r3) =>
            match litP " " r3 with
            | some r4 => r4
            | none => r
          | none => r
        | none => r
    match takeDigits1 r1 with
    | none => none
    | some (n, r2) =>
      let r3 := (litP "more " (dropSpaces r2)).getD (dropSpaces r2)
      match litP "time" r3 with
      | some _ => some n
      | none => none

/-- `scroll down (?:at least )?(\d+)\s*px` (line 81). -/
def scrollDownAt (l : List Char) : Option Nat :=
  match litP "scroll down " l with
  | none => none
  | some r =>
    match takeDigits1 ((litP "at least " r).getD r) with
    | none => none
    | some (n, r2) =>
      match litP "px" (dropSpaces r2) with
      | some _ => some n
      | none => none

/-- `wait(?:ing)? (?:for )?(\d+) seconds?` (line 87). -/
def waitSecsAt (l : List Char) : Option Nat :=
  match litP "wait" l with
  | none => none
  | some r =>
    match litP " " ((litP "ing" r).getD r) with
    | none => none
    | some r2 =>
      match takeDigits1 ((litP "for " r2).getD r2) with
      | none => none
      | some (n, r3) =>
        match litP " second" r3 with
        | some _ => some n
        | none => none

/-- `(?:navigate|click) (?:through |each )?(\d+)\s*(?:nested )?(?:layer|level)`
    (line 99). -/
def navLayersAt (l : List Char) : Option Nat :=
  match (litP "navigate " l <|> litP "click " l) with
  | none => none
  | some r =>
    let r1 := match litP "through " r with
      | some r2 => r2
      | none => (litP "each " r).getD r
    match takeDigits1 r1 with
    | none => none
    | some (n, r2) =>
      let r3 := (litP "nested " (dropSpaces r2)).getD (dropSpaces r2)
      match (litP "layer" r3 <|> litP "level" r3) with
      | some _ => some n
      | none => none

/-- `(\d+)\s*times` (line 149). -/
def timesCountAt (l : List Char) : Option Nat :=
  match takeDigits1 l with
  | none => none
  | some (n, r) =>
    match litP "times" (dropSpaces r) with
    | some _ => some n
    | none => none

/-- `(\d+)\s*(?:dom )?mutation` (line 166). -/
def mutationCountAt (l : List Char) : Option Nat :=
  match takeDigits1 l with
  | none => none
  | some (n, r) =>
    match litP "mutation" ((litP "dom " (dropSpaces r)).getD (dropSpaces r)) with
    | some _ => some n
    | none => none

/-- `click\s+["'](\w+)["']` (line 206). -/
def clickQuotedAt (l : List Char) : Option String :=
  match litP "click" l with
  | none => none
  | some r =>
    if (r.takeWhile isSpaceChar).isEmpty then none
    else
      match r.drop (r.takeWhile isSpaceChar).length with
      | q :: rest =>
        if q == '"' || q == '\'' then
          match takeWord1 rest with
          | some (w, r2) =>
            match r2 with
            | q2 :: _ =>
              if q2 == '"' || q2 == '\'' then some (String.mk w) else none
            | [] => none
          | none => none
        else none
      | [] => none

/-- `(\d+)\s*(?:nested\s*)?(?:levels?|layers?)` (line 299). -/
def levelsCountAt (l : List Char) : Option Nat :=
  match takeDigits1 l with
  | none => none
  | some (n, r) =>
    let r1 := match litP "nested" (dropSpaces r) with
      | some r2 => dropSpaces r2
      | none => dropSpaces r
    match (litP "level" r1 <|> litP "layer" r1) with
    | some _ => some n
    | none => none

/-! ### The hover and canvas element selections (lines 108-145, 264-270) -/

/-- Skip submit/code form inputs and buttons (lines 116-117, 133-134). -/
def hoverExcluded (el : ElementInfo) : Bool :=
  (el.tag == "input" || el.tag == "button") &&
  (containsSub "submit" (lowerStr el.name) ||
   containsSub "code" (lowerStr el.name))

/-- Candidates whose name mentions "hover here"/"hover over" (118-119). -/
def hoverCandidateFilter (els : List ElementInfo) : List ElementInfo :=
  els.filter fun el =>
    !hoverExcluded el &&
    (containsSub "hover here" (lowerStr el.name) ||
     containsSub "hover over" (lowerStr el.name))

/-- `_hover_sort_key` (lines 124-127): clickable first, then area
    (`none` bbox = `float("inf")`). -/
def hoverKey (el : ElementInfo) : Nat × Option Nat :=
  ((if containsSub "clickable" el.extra then 0 else 1),
   el.bbox.map fun b => b.1 * b.2)

/-- Area comparison with `none` as infinity. -/
def areaLt : Option Nat → Option Nat → Bool
  | some x, some y => x < y
  | some _, none => true
  | none, _ => false

/-- Lexicographic key comparison. -/
def keyLt (a b : Nat × Option Nat) : Bool :=
  a.1 < b.1 || (a.1 == b.1 && areaLt a.2 b.2)

/-- Python `min(candidates, key=_hover_sort_key)`: first minimum. -/
def minByKeyGo (best : ElementInfo) : List ElementInfo → ElementInfo
  | [] => best
  | e :: es =>
    minByKeyGo (if keyLt (hoverKey e) (hoverKey best) then e else best) es

/-- `min` over a possibly-empty candidate list. -/
def minByKey : List ElementInfo → Option ElementInfo
  | [] => none
  | e :: es => some (minByKeyGo e es)

/-- Fallback: any clickable element with "hover" in its name (129-137). -/
def hoverFallback (els : List ElementInfo) : Option ElementInfo :=
  els.find? fun el =>
    !hoverExcluded el && containsSub "hover" (lowerStr el.name) &&
    !el.extra.isEmpty && containsSub "clickable" el.extra

/-- The hover branch (lines 108-145). -/
def hoverActions (inst : String) (els : List ElementInfo) : List Action :=
  if containsSub "hover" inst then
    match (match minByKey (hoverCandidateFilter els) with
           | some e => some e
           | none => hoverFallback els) with
    | some e => [{ type := "hover", element := some e.index, duration := 1 }]
    | none =>
      if containsSub "complete all" inst then []
      else [{ type := "hover", duration := 1 }]
  else []

/-- The canvas branch (lines 264-270). -/
def canvasActions (inst : String) (els : List ElementInfo) : List Action :=
  if containsSub "canvas" inst ||
      (containsSub "draw" inst && containsSub "stroke" inst) then
    match els.find? (fun el => el.tag == "canvas") with
    | some e => [{ type := "draw_strokes", element := some e.index }]
    | none => [{ type := "draw_strokes" }]
  else []

/-- `_parse_instruction_actions(instruction, elements)`: the Tier-0
    proposer.  Branches appear in source order; `inst` is the lowercased
    instruction. -/
def parseInstructionActions (instruction : String)
    (elements : List ElementInfo) : List Action :=
  let inst := lowerStr instruction
  let i := inst.data
  (match reSearch clickTimesAt i with
   | some n => [{ type := "js", value := .js (.clickHereTimes n) }]
   | none => []) ++
  (match reSearch scrollDownAt i with
   | some px => [{ type := "scroll", amount := px }]
   | none => []) ++
  (match reSearch waitSecsAt i with
   | some secs => [{ type := "wait", amount := secs }]
   | none => []) ++
  (if containsSub "drag" inst then [{ type := "drag" }] else []) ++
  (match reSearch navLayersAt i with
   | some n =>
     if !containsSub "iframe" inst && !containsSub "shadow" inst then
       List.replicate (n + 1)
         { type := "click", element := none, value := .lit "layer_button" }
     else []
   | none => []) ++
  hoverActions inst elements ++
  (if containsSub "capture" inst then
     [{ type := "js",
        value := .js (.captureClicks ((reSearch timesCountAt i).getD 3)) }]
   else []) ++
  (if containsSub "mutation" inst && containsSub "trigger" inst then
     [{ type := "js",
        value := .js (.mutationClicks ((reSearch mutationCountAt i).getD 5)) }]
   else []) ++
  (if containsSub "audio" inst && containsSub "play" inst then
     [{ type := "js", value := .js .audioPlay }]
   else []) ++
  (match reSearch clickQuotedAt i with
   | some name =>
     if !containsSub "audio" inst then
       if containsSub "timing" inst || containsSub "while" inst ||
           containsSub "window" inst then
         [{ type := "js", value := .js (.clickNamedLoop name) }]
       else
         [{ type := "js", value := .js (.clickNamedOnce name) }]
     else []
   | none => []) ++
  (if containsSub "seek" inst ||
      (containsSub "frame" inst && containsSub "video" inst) then
     [{ type := "js", value := .js .videoSeek }]
   else []) ++
  canvasActions inst elements ++
  (if (containsSub "puzzle" inst || containsSub "solve" inst) &&
      !containsSub "scroll" inst && !containsSub "tab" inst then
     [{ type := "js", value := .js .puzzleSolve }]
   else []) ++
  (if containsSub "tab" inst &&
      (containsSub "visit" inst || containsSub "click each" inst) then
     [{ type := "js", value := .js .tabVisit }]
   else []) ++
  (if (containsSub "iframe" inst || containsSub "shadow" inst) &&
      (containsSub "level" inst || containsSub "nested" inst ||
       containsSub "layer" inst || containsSub "navigate" inst) then
     [{ type := "js",
        value := .js (.iframeLayers ((reSearch levelsCountAt i).getD 5)) },
      { type := "wait", amount := 2 }]
   else [])

/-- **C6 (counterexample).** Tier 0 is not a function of the instruction
    text alone: with the identical instruction `"canvas"` (and no history
    — the proposer takes none), two calls differing only in the element
    list return different action lists (`draw_strokes` without vs. with a
    target element). -/
theorem claim_C6_counterexample :
    parseInstructionActions "canvas" [] ≠
      parseInstructionActions "canvas"
        [{ index := 0, tag := "canvas", name := "", extra := "",
           bbox := none }] := by
  decide

/-- **C6 (amended).** Tier 0 is deterministic as a function of the
    instruction text and the element list; it depends on the instruction
    text alone whenever none of the element-reading branches (hover,
    canvas/draw-stroke) applies: for any two element lists, identical
    instruction text then yields identical action lists. -/
theorem claim_C6_amended (instruction : String)
    (els els' : List ElementInfo)
    (hHover : containsSub "hover" (lowerStr instruction) = false)
    (hCanvas : containsSub "canvas" (lowerStr instruction) = false)
    (hDraw : containsSub "draw" (lowerStr instruction) = false ∨
      containsSub "stroke" (lowerStr instruction) = false) :
    parseInstructionActions instruction els =
      parseInstructionActions instruction els' := by
  have hh : ∀ e, hoverActions (lowerStr instruction) e = [] := by
    intro e
    unfold hoverActions
    rw [if_neg (fun hc => by rw [hHover] at hc; cases hc)]
  have hc : ∀ e, canvasActions (lowerStr instruction) e = [] := by
    intro e
    unfold canvasActions
    rw [if_neg ?_]
    intro hcond
    rw [Bool.or_eq_true] at hcond
    rcases hcond with hcond | hcond
    · rw [hCanvas] at hcond; cases hcond
    · rw [Bool.and_eq_true] at hcond
      rcases hDraw with hd | hd
      · rw [hd] at hcond; exact absurd hcond.1 (by simp)
      · rw [hd] at hcond; exact absurd hcond.2 (by simp)
  unfold parseInstructionActions
  simp only [hh, hc]

/-- Witness for C6 (amended): `"click here 3 times"` proposes the same
    actions for two different element lists. -/
theorem claim_C6_witness :
    parseInstructionActions "click here 3 times" [] =
      parseInstructionActions "click here 3 times"
        [{ index := 2, tag := "button", name := "Click here", extra := "",
           bbox := none }] :=
  claim_C6_amended "click here 3 times" []
    [{ index := 2, tag := "button", name := "Click here", extra := "",
       bbox := none }]
    (by decide) (by decide) (Or.inl (by decide))

end WebNav
